import Mathlib

/-!
# Zabbix agent poller: `checks_agent.c`

A shallow embedding of `src/zabbix_server/poller/checks_agent.c`:

* the single-target path `get_value_agent`;
* the per-socket state machine `handle_socket_operation`;
* the batch poller `get_value_agent_async`.

C strings are lists of characters read up to the first NUL.  The operating
system and the transport layer (`socket`, `connect`, `getsockopt`, `ioctl`,
`zbx_tcp_send`, `zbx_tcp_recv_ext`, `time`) are an explicit record of
observations, indexed by the target and by the scheduling tick at which the
call is made; every primitive is called at most once per target and tick, so
each execution of the C code is the run of the model on one such record.
-/

namespace Zbx

/-! ## Constants of the headers -/

/-- Modelled from the spec: the status codes of `include/common.h`, which is not
among the sources; the values are the ones Zabbix gives them. -/
def SUCCEED : Int := 0
/-- Modelled from the spec: status code of `include/common.h`. -/
def FAIL : Int := -1
/-- Modelled from the spec: status code of `include/common.h`. -/
def NOTSUPPORTED : Int := -2
/-- Modelled from the spec: status code of `include/common.h`. -/
def NETWORK_ERROR : Int := -3
/-- Modelled from the spec: status code of `include/common.h`. -/
def TIMEOUT_ERROR : Int := -4
/-- Modelled from the spec: status code of `include/common.h`. -/
def AGENT_ERROR : Int := -5
/-- Modelled from the spec: status code of `include/common.h`. -/
def CONFIG_ERROR : Int := -7

/-- Modelled from the spec: item type of the passive agent check (`include/common.h`). -/
def ITEM_TYPE_ZABBIX : Int := 0
/-- Modelled from the spec: security mode "none" (`include/comms.h`). -/
def ZBX_TCP_SEC_UNENCRYPTED : Int := 1
/-- Modelled from the spec: security mode "pre-shared key" (`include/comms.h`). -/
def ZBX_TCP_SEC_TLS_PSK : Int := 2
/-- Modelled from the spec: security mode "certificate" (`include/comms.h`). -/
def ZBX_TCP_SEC_TLS_CERT : Int := 4
/-- Modelled from the spec: failure value of `socket()` (`include/comms.h`). -/
def ZBX_SOCKET_ERROR : Int := -1
/-- Modelled from the spec: failure value of `connect()` (`include/comms.h`). -/
def ZBX_PROTO_ERROR : Int := -1

/-- The `#define INIT 10` of `checks_agent.c`. -/
def INIT : Int := 10
/-- The `#define SKIPPED 11` of `checks_agent.c`. -/
def SKIPPED : Int := 11
/-- The `#define SOCKET_CREATED 12` of `checks_agent.c`. -/
def SOCKET_CREATED : Int := 12
/-- The `#define CONNECT_SENT 13` of `checks_agent.c`. -/
def CONNECT_SENT : Int := 13
/-- The `#define REQ_SENT 14` of `checks_agent.c`. -/
def REQ_SENT : Int := 14
/-- The `#define CLOSED 15` of `checks_agent.c`. -/
def CLOSED : Int := 15
/-- The `#define ZBX_AGENT_MAX_RESPONSE_TIME 2` of `checks_agent.c`. -/
def ZBX_AGENT_MAX_RESPONSE_TIME : Int := 2

/-! ## C strings -/

/-- The terminating byte of a C string. -/
def NUL : Char := Char.ofNat 0
/-- Carriage return. -/
def CR : Char := Char.ofNat 13
/-- Line feed. -/
def LF : Char := Char.ofNat 10

/-- The sentinel `ZBX_NOTSUPPORTED` (`"ZBX_NOTSUPPORTED"`). -/
def ZBX_NOTSUPPORTED : List Char :=
  ['Z', 'B', 'X', '_', 'N', 'O', 'T', 'S', 'U', 'P', 'P', 'O', 'R', 'T', 'E', 'D']

/-- The sentinel `ZBX_ERROR` (`"ZBX_ERROR"`). -/
def ZBX_ERROR : List Char := ['Z', 'B', 'X', '_', 'E', 'R', 'R', 'O', 'R']

/-- The C expression `sizeof(ZBX_NOTSUPPORTED)`: the literal and its terminating NUL. -/
def sizeof_ZBX_NOTSUPPORTED : Nat := ZBX_NOTSUPPORTED.length + 1

/-- The C string stored at the start of a memory area: the characters before the
first NUL. -/
def cstr (buf : List Char) : List Char := buf.takeWhile (fun c => c ≠ NUL)

/-- The test `0 == strcmp(buf, lit)` against a NUL-free literal. -/
def streq (buf lit : List Char) : Bool := cstr buf == lit

/-- Modelled from the spec: `zbx_rtrim` of `libs/zbxcommon/str.c`, which is not
among the sources.  The trailing characters of the C string that belong to
`charlist` are removed, in place: each is overwritten by NUL and the bytes after
the old terminator stay where they are. -/
def zbx_rtrim (str charlist : List Char) : List Char :=
  let s := cstr str
  let kept := (s.reverse.dropWhile (fun c => c ∈ charlist)).reverse
  kept ++ List.replicate (s.length - kept.length) NUL ++ str.drop s.length

/-- Modelled from the spec: `zbx_ltrim` of `libs/zbxcommon/str.c`, which is not
among the sources.  The leading characters of the C string that belong to
`charlist` are removed, in place: the rest of the string is moved to the front
and terminated, and the bytes after the new terminator stay where they are. -/
def zbx_ltrim (str charlist : List Char) : List Char :=
  let s := cstr str
  let rest := s.dropWhile (fun c => c ∈ charlist)
  if rest.length = s.length then str
  else rest ++ NUL :: str.drop (rest.length + 1)

/-- The text the classifier compares with the sentinels, as the spec words it:
trailing spaces, CR and LF removed, then leading spaces removed. -/
def trimmed (text : List Char) : List Char :=
  ((text.reverse.dropWhile (fun c => c ∈ [' ', CR, LF])).reverse).dropWhile (fun c => c ∈ [' '])

/-! ## Items and results -/

/-- The fields of `DC_ITEM` that the poller reads. -/
structure DC_ITEM where
  /-- The field `item->type`. -/
  type : Int
  /-- The field `item->host.tls_connect`. -/
  tls_connect : Int
  /-- The field `item->host.host`. -/
  host : String
  /-- The field `item->interface.addr`. -/
  addr : String
  /-- The field `item->interface.port`. -/
  port : Nat
  /-- The field `item->key`. -/
  key : String
  deriving DecidableEq, Repr

/-- The fields of `AGENT_RESULT` that the poller writes: the message and the text
value (each absent until set). -/
structure AGENT_RESULT where
  /-- The field `result->msg`, set by `SET_MSG_RESULT`. -/
  msg : Option (List Char)
  /-- The field `result->text`, set by `set_result_type(..., ITEM_VALUE_TYPE_TEXT, ...)`. -/
  text : Option (List Char)
  deriving DecidableEq, Repr

/-- What `zbx_tcp_recv_ext(s, 0)` leaves behind: its return value and the socket
fields `s->buffer` and `s->read_bytes`. -/
structure RecvResult where
  /-- The return value: `FAIL`, or the number of bytes received. -/
  received_len : Int
  /-- The memory at `s->buffer`. -/
  buffer : List Char
  /-- The field `s->read_bytes`. -/
  read_bytes : Nat
  deriving DecidableEq, Repr

/-- The message "Not supported by Zabbix Agent". -/
def MSG_NOT_SUPPORTED : List Char := "Not supported by Zabbix Agent".toList
/-- The message "Zabbix Agent non-critical error". -/
def MSG_AGENT_ERROR : List Char := "Zabbix Agent non-critical error".toList
/-- The message of an empty response, with the address of the item. -/
def MSG_EMPTY (addr : String) : List Char :=
  ("Received empty response from Zabbix Agent at [" ++ addr ++ "]."
    ++ " Assuming that agent dropped connection because of access permissions.").toList
/-- The message of a failed exchange, with the text of `zbx_socket_strerror()`. -/
def MSG_GET_FAILED (strerror : List Char) : List Char :=
  "Get value from agent failed: ".toList ++ strerror
/-- The message of a TLS item in a build without TLS. -/
def MSG_NO_TLS (program : String) : List Char :=
  ("A TLS connection is configured to be used with agent"
    ++ " but support for TLS was not compiled into " ++ program ++ ".").toList
/-- The message "Invalid TLS connection parameters.". -/
def MSG_INVALID_TLS : List Char := "Invalid TLS connection parameters.".toList

/-- The message "Cannot get hostname for the ip." of a failed name resolution. -/
def MSG_NO_HOSTNAME : List Char := "Cannot get hostname for the ip.".toList
/-- The message "Cannot  connect to the host" of a failed `connect()`. -/
def MSG_NO_CONNECT : List Char := "Cannot  connect to the host".toList
/-- The message "Cannot send request to the agent" of a failed `zbx_tcp_send`. -/
def MSG_SEND_FAILED : List Char := "Cannot send request to the agent".toList
/-- The message of a failed `socket()`. -/
def MSG_NO_SOCKET : List Char := "Couldn\x27t create socket".toList
/-- The message of a pending socket error found by the polling loop. -/
def MSG_CONNECTION_FAILED : List Char :=
  "Connection to the host failed: check firewall rules and agent is running".toList
/-- The message "Waiting for responce timed out" of the closing loop. -/
def MSG_TIMED_OUT : List Char := "Waiting for responce timed out".toList

/-- The macro `SET_MSG_RESULT(res, val)`. -/
def SET_MSG_RESULT (res : AGENT_RESULT) (val : List Char) : AGENT_RESULT :=
  { res with msg := some val }

/-- Modelled from the spec: `set_result_type(result, ITEM_VALUE_TYPE_TEXT, c)` of
`libs/zbxsysinfo/sysinfo.c`, which is not among the sources: the value is the C
string `c` taken as a text payload. -/
def set_result_type_text (res : AGENT_RESULT) (c : List Char) : AGENT_RESULT :=
  { res with text := some (cstr c) }

/-! ## The single-target path -/

/-- What the transport reports during one call of `get_value_agent`. -/
structure AgentCall where
  /-- The return value of `zbx_tcp_connect`. -/
  connect : Int
  /-- The return value of `zbx_tcp_send`. -/
  send : Int
  /-- The outcome of `zbx_tcp_recv_ext`. -/
  recv : RecvResult
  /-- The return value of `zbx_alarm_timed_out()`. -/
  timed_out : Int
  /-- The text of `zbx_socket_strerror()`. -/
  strerror : List Char
  deriving DecidableEq, Repr

/-- Lines 114-145 of `get_value_agent`, reached with `ret == SUCCEED`: the buffer
is trimmed in place and classified. -/
def get_value_agent_classify (item : DC_ITEM) (r : RecvResult) (result : AGENT_RESULT) :
    Int × AGENT_RESULT :=
  let buffer := zbx_ltrim (zbx_rtrim r.buffer [' ', CR, LF]) [' ']
  if streq buffer ZBX_NOTSUPPORTED then
    if sizeof_ZBX_NOTSUPPORTED < r.read_bytes then
      (NOTSUPPORTED, SET_MSG_RESULT result (cstr (buffer.drop sizeof_ZBX_NOTSUPPORTED)))
    else
      (NOTSUPPORTED, SET_MSG_RESULT result MSG_NOT_SUPPORTED)
  else if streq buffer ZBX_ERROR then
    (AGENT_ERROR, SET_MSG_RESULT result MSG_AGENT_ERROR)
  else if r.received_len = 0 then
    (NETWORK_ERROR, SET_MSG_RESULT result (MSG_EMPTY item.addr))
  else
    (SUCCEED, set_result_type_text result buffer)

/-- The function `get_value_agent`: the returned status and the result.  `tls`
says whether the build has TLS support, `program` is the text of
`get_program_type_string(program_type)`. -/
def get_value_agent (tls : Bool) (program : String) (w : AgentCall) (item : DC_ITEM)
    (result : AGENT_RESULT) : Int × AGENT_RESULT :=
  if item.tls_connect = ZBX_TCP_SEC_UNENCRYPTED
      ∨ (tls = true ∧ (item.tls_connect = ZBX_TCP_SEC_TLS_CERT
          ∨ item.tls_connect = ZBX_TCP_SEC_TLS_PSK)) then
    let ret : Int :=
      if w.connect = SUCCEED then
        if w.send ≠ SUCCEED then NETWORK_ERROR
        else if w.recv.received_len ≠ FAIL then SUCCEED
        else if w.timed_out = SUCCEED then TIMEOUT_ERROR
        else NETWORK_ERROR
      else NETWORK_ERROR
    if ret = SUCCEED then get_value_agent_classify item w.recv result
    else (ret, SET_MSG_RESULT result (MSG_GET_FAILED w.strerror))
  else if item.tls_connect = ZBX_TCP_SEC_TLS_CERT ∨ item.tls_connect = ZBX_TCP_SEC_TLS_PSK then
    (CONFIG_ERROR, SET_MSG_RESULT result (MSG_NO_TLS program))
  else
    (CONFIG_ERROR, SET_MSG_RESULT result MSG_INVALID_TLS)

/-! ## The batch poller -/

/-- Ghost record of what the call does to one target, in order: the writes to
`errcodes[i]`, the writes to `results[i]`, and the calls of `zbx_tcp_close`. -/
inductive Ev where
  /-- An assignment to `errcodes[i]`. -/
  | errcode (v : Int)
  /-- A `SET_MSG_RESULT` on `results[i]`. -/
  | msg (m : List Char)
  /-- A `set_result_type` on `results[i]`. -/
  | text (v : List Char)
  /-- A call `zbx_tcp_close(&s[i])` while `s[i].socket` holds `fd`. -/
  | close (fd : Int)
  deriving DecidableEq, Repr

/-- Index `i` of the parallel arrays `items`, `s`, `conn_status`, `errcodes` and
`results`, kept as one record, with the ghost trace of the target. -/
structure Target where
  /-- The request `items[i]`. -/
  item : DC_ITEM
  /-- The descriptor `s[i].socket` (0 after the `memset`). -/
  socket : Int
  /-- The state `conn_status[i]`. -/
  conn_status : Int
  /-- The status `errcodes[i]`. -/
  errcode : Int
  /-- The result `results[i]`. -/
  result : AGENT_RESULT
  /-- Ghost: the events of this target so far. -/
  trace : List Ev
  deriving DecidableEq, Repr

/-- The assignment `*errcode = v`. -/
def Target.setErr (t : Target) (v : Int) : Target :=
  { t with errcode := v, trace := t.trace ++ [Ev.errcode v] }

/-- The statement `SET_MSG_RESULT(result, m)`. -/
def Target.setMsg (t : Target) (m : List Char) : Target :=
  { t with result := SET_MSG_RESULT t.result m, trace := t.trace ++ [Ev.msg m] }

/-- The statement `set_result_type(result, ITEM_VALUE_TYPE_TEXT, c)`. -/
def Target.setText (t : Target) (c : List Char) : Target :=
  { t with result := set_result_type_text t.result c, trace := t.trace ++ [Ev.text (cstr c)] }

/-- The assignment `*conn_status = v`. -/
def Target.setStatus (t : Target) (v : Int) : Target :=
  { t with conn_status := v }

/-- The assignment `socket->socket = fd`. -/
def Target.setSocket (t : Target) (fd : Int) : Target :=
  { t with socket := fd }

/-- The call `zbx_tcp_close(socket)`; it leaves the field `socket` as it is. -/
def Target.tcpClose (t : Target) : Target :=
  { t with trace := t.trace ++ [Ev.close t.socket] }

/-- What the operating system and the transport report to one batch.  The first
argument is the index of the target, the second (where present) the tick of the
polling loop in which the call is made. -/
structure Net where
  /-- The return value of `socket()` for target `i`: `ZBX_SOCKET_ERROR` on failure,
  else the new descriptor (the lowest free one, so 0 when descriptor 0 is free). -/
  socket : Nat → Int
  /-- Whether `gethostbyname` finds the address of target `i` (returns non-NULL). -/
  gethostbyname : Nat → Bool
  /-- The return value of `connect()` for target `i`. -/
  connect : Nat → Int
  /-- Whether `errno` is `EINPROGRESS` after the `connect()` of target `i`. -/
  einprogress : Nat → Bool
  /-- The return value of `getsockopt(SO_ERROR)` for target `i` in tick `k`. -/
  getsockopt_ret : Nat → Nat → Int
  /-- The pending socket error that `getsockopt` stores in `result`. -/
  getsockopt_result : Nat → Nat → Int
  /-- The byte count that `ioctl(FIONREAD)` stores in `count`. -/
  fionread : Nat → Nat → Int
  /-- The return value of `zbx_tcp_send` for target `i` in tick `k`. -/
  send : Nat → Nat → Int
  /-- The outcome of `zbx_tcp_recv_ext` for target `i` in tick `k`. -/
  recv : Nat → Nat → RecvResult
  /-- The text of `zbx_socket_strerror()` for target `i` in tick `k`. -/
  strerror : Nat → Nat → List Char
  /-- The reading of `time(NULL)` that is stored in `starttime`. -/
  starttime : Nat
  /-- The reading of `time(NULL)` in the `k`-th evaluation of the loop condition. -/
  time : Nat → Nat

/-- Lines 226-261 of `handle_socket_operation`: the receive step of state
`REQ_SENT` with the classification of the response, before the socket is
closed.  `r` is what `zbx_tcp_recv_ext` reports and `strerror` the text of
`zbx_socket_strerror()`. -/
def recv_and_classify (r : RecvResult) (strerror : List Char) (t : Target) : Target :=
  if r.received_len ≠ FAIL then
    let t0 := t.setErr SUCCEED
    let buffer := zbx_ltrim (zbx_rtrim r.buffer [' ', CR, LF]) [' ']
    if streq buffer ZBX_NOTSUPPORTED then
      (if sizeof_ZBX_NOTSUPPORTED < r.read_bytes then
        t0.setMsg (cstr (buffer.drop sizeof_ZBX_NOTSUPPORTED))
      else
        t0.setMsg MSG_NOT_SUPPORTED).setErr NOTSUPPORTED
    else if streq buffer ZBX_ERROR then
      (t0.setMsg MSG_AGENT_ERROR).setErr AGENT_ERROR
    else if r.received_len = 0 then
      (t0.setMsg (MSG_EMPTY t.item.addr)).setErr NETWORK_ERROR
    else
      t0.setText buffer
  else
    (t.setMsg (MSG_GET_FAILED strerror)).setErr NETWORK_ERROR

/-- The function `handle_socket_operation`, for target `i`, called in tick `k`
(the setup loop calls it before the first tick). -/
def handle_socket_operation (net : Net) (i k : Nat) (t : Target) (active_agents : Nat) :
    Target × Nat :=
  if t.conn_status = SOCKET_CREATED then
    if net.gethostbyname i = false then
      ((((t.setMsg MSG_NO_HOSTNAME).setStatus FAIL).setErr CONFIG_ERROR), active_agents)
    else if net.connect i = ZBX_PROTO_ERROR ∧ net.einprogress i = false then
      ((((t.setStatus FAIL).setErr CONFIG_ERROR).setMsg MSG_NO_CONNECT), active_agents)
    else
      (t.setStatus CONNECT_SENT, active_agents)
  else if t.conn_status = CONNECT_SENT then
    let t1 :=
      if net.send i k ≠ SUCCEED then
        ((t.setErr NETWORK_ERROR).setStatus FAIL).setMsg MSG_SEND_FAILED
      else t
    (t1.setStatus REQ_SENT, active_agents)
  else if t.conn_status = REQ_SENT then
    let t1 := recv_and_classify (net.recv i k) (net.strerror i k) t
    (((t1.tcpClose).setSocket 0).setStatus FAIL, (active_agents + 2 ^ 32 - 1) % 2 ^ 32)
  else
    (t, active_agents)

/-- A loop `for (i = start; i < num; i++)` whose body works on index `i` of the
arrays and on the counter `active_agents`. -/
def forLoop (body : Nat → Target → Nat → Target × Nat) :
    Nat → List Target → Nat → List Target × Nat
  | _, [], a => ([], a)
  | i, t :: ts, a =>
    let r := body i t a
    let rs := forLoop body (i + 1) ts r.2
    (r.1 :: rs.1, rs.2)

/-- The body of the setup loop (lines 305-370) of `get_value_agent_async`. -/
def setupBody (tls : Bool) (program : String) (net : Net) (i : Nat) (t : Target)
    (active_agents : Nat) : Target × Nat :=
  let t0 := t.setStatus INIT
  if ITEM_TYPE_ZABBIX ≠ t0.item.type then
    (t0.setStatus SKIPPED, active_agents)
  else if t0.item.tls_connect = ZBX_TCP_SEC_UNENCRYPTED
      ∨ (tls = true ∧ (t0.item.tls_connect = ZBX_TCP_SEC_TLS_CERT
          ∨ t0.item.tls_connect = ZBX_TCP_SEC_TLS_PSK)) then
    let t1 := t0.setSocket (net.socket i)
    if t1.socket = ZBX_SOCKET_ERROR then
      ((((t1.setStatus SKIPPED).setErr CONFIG_ERROR).setMsg MSG_NO_SOCKET),
        active_agents)
    else
      handle_socket_operation net i 0 (t1.setStatus SOCKET_CREATED) ((active_agents + 1) % 2 ^ 32)
  else if t0.item.tls_connect = ZBX_TCP_SEC_TLS_CERT
      ∨ t0.item.tls_connect = ZBX_TCP_SEC_TLS_PSK then
    ((((t0.setMsg (MSG_NO_TLS program)).setStatus SKIPPED).setErr CONFIG_ERROR), active_agents)
  else
    ((((t0.setMsg MSG_INVALID_TLS).setStatus SKIPPED).setErr CONFIG_ERROR), active_agents)

/-- The body of the scan (lines 386-425) that one tick `k` of the polling loop
makes over the targets.  The statement `conn_status[i]==CLOSED;` of line 405 is a
comparison whose value is dropped. -/
def tickBody (net : Net) (k : Nat) (i : Nat) (t : Target) (active_agents : Nat) :
    Target × Nat :=
  if t.conn_status = SKIPPED ∨ t.conn_status = FAIL ∨ t.conn_status = CLOSED then
    (t, active_agents)
  else if t.conn_status = CONNECT_SENT then
    if net.getsockopt_ret i k < 0 then
      (t, active_agents)
    else if net.getsockopt_result i k ≠ 0 then
      ((t.setMsg MSG_CONNECTION_FAILED).setErr NETWORK_ERROR, active_agents)
    else
      handle_socket_operation net i k t active_agents
  else if t.conn_status = REQ_SENT then
    if net.fionread i k = 0 then
      (t, active_agents)
    else
      handle_socket_operation net i k t active_agents
  else
    (t, active_agents)

/-- The body of the closing loop (lines 432-442) of `get_value_agent_async`. -/
def finalBody (_i : Nat) (t : Target) (active_agents : Nat) : Target × Nat :=
  let t1 := if t.socket ≠ 0 then t.tcpClose else t
  if REQ_SENT = t1.conn_status ∨ CONNECT_SENT = t1.conn_status then
    ((t1.setMsg MSG_TIMED_OUT).setErr TIMEOUT_ERROR, active_agents)
  else
    (t1, active_agents)

/-- The arrays and the counter of one batch. -/
structure Batch where
  /-- The parallel arrays, one record per index. -/
  targets : List Target
  /-- The counter `active_agents` (an `unsigned int`). -/
  active_agents : Nat
  deriving DecidableEq, Repr

/-- The condition of the polling loop in its `k`-th evaluation: `active_agents > 0`
and `time(NULL) - starttime < ZBX_AGENT_MAX_RESPONSE_TIME * 2`, where `starttime`
is an `unsigned int`. -/
def loopCond (net : Net) (k : Nat) (b : Batch) : Prop :=
  0 < b.active_agents ∧
    (net.time k : Int) - ((net.starttime % 2 ^ 32 : Nat) : Int) < ZBX_AGENT_MAX_RESPONSE_TIME * 2

instance (net : Net) (k : Nat) (b : Batch) : Decidable (loopCond net k b) := by
  unfold loopCond; infer_instance

/-- One tick of the polling loop: the scan of all targets. -/
def tick (net : Net) (k : Nat) (b : Batch) : Batch :=
  let r := forLoop (tickBody net k) 0 b.targets b.active_agents
  { targets := r.1, active_agents := r.2 }

/-- The polling loop (lines 375-427), from its `k`-th iteration on, run for at most
`fuel` evaluations of its condition; `none` when the loop has not ended by then. -/
def pollLoop (net : Net) : Nat → Nat → Batch → Option Batch
  | 0, _, _ => none
  | fuel + 1, k, b =>
    if loopCond net k b then pollLoop net fuel (k + 1) (tick net k b) else some b

/-- One index of the caller's arrays when `get_value_agent_async` is called. -/
structure Slot where
  /-- The request `items[i]`. -/
  item : DC_ITEM
  /-- The incoming content of `results[i]`. -/
  result : AGENT_RESULT
  /-- The incoming content of `errcodes[i]`. -/
  errcode : Int
  deriving DecidableEq, Repr

/-- The state of index `i` before the setup loop: the socket zeroed by `memset`,
`conn_status[i]` not yet assigned (the loop starts by assigning it). -/
def Slot.start (s : Slot) : Target :=
  { item := s.item, socket := 0, conn_status := 0, errcode := s.errcode, result := s.result,
    trace := [] }

/-- The state of the batch after the setup loop. -/
def setup (tls : Bool) (program : String) (net : Net) (slots : List Slot) : Batch :=
  let r := forLoop (setupBody tls program net) 0 (slots.map Slot.start) 0
  { targets := r.1, active_agents := r.2 }

/-- The closing loop applied to the state in which the polling loop ended. -/
def finish (b : Batch) : Batch :=
  let r := forLoop finalBody 0 b.targets b.active_agents
  { targets := r.1, active_agents := r.2 }

/-- The function `get_value_agent_async` on a batch of `num = slots.length`
requests: the arrays when the call returns, `none` when the polling loop has
not ended within `fuel` evaluations of its condition.  (`zbx_malloc` ends the
process instead of returning NULL, so the two allocation checks never fire.) -/
def get_value_agent_async (tls : Bool) (program : String) (net : Net) (fuel : Nat)
    (slots : List Slot) : Option Batch :=
  (pollLoop net fuel 0 (setup tls program net slots)).map finish

/-! ## Notions used in the statements -/

/-- A memory area that is empty or starts with the terminator. -/
def Terminated (r : List Char) : Prop := r = [] ∨ ∃ r', r = NUL :: r'

/-- The hypotheses under which `get_value_agent` has a response to classify. -/
def responseReceived (tls : Bool) (w : AgentCall) (item : DC_ITEM) : Prop :=
  (item.tls_connect = ZBX_TCP_SEC_UNENCRYPTED
      ∨ (tls = true ∧ (item.tls_connect = ZBX_TCP_SEC_TLS_CERT
          ∨ item.tls_connect = ZBX_TCP_SEC_TLS_PSK)))
    ∧ w.connect = SUCCEED ∧ w.send = SUCCEED ∧ w.recv.received_len ≠ FAIL

/-- The receive step stored the response bytes `resp`: they are at the start of
the buffer, followed by the terminator that `zbx_tcp_recv_ext` writes, and
`read_bytes` is their number. -/
def holds (r : RecvResult) (resp : List Char) : Prop :=
  r.read_bytes = resp.length ∧ ∃ junk, r.buffer = resp ++ NUL :: junk

/-- The descriptors on which `zbx_tcp_close` has been called for a target, in order. -/
def closes (t : Target) : List Int :=
  t.trace.filterMap (fun e => match e with
    | Ev.close fd => some fd
    | _ => none)

/-- What the setup loop makes of index `i`. -/
def setupTarget (tls : Bool) (program : String) (net : Net) (i : Nat) (s : Slot) : Target :=
  (setupBody tls program net i s.start 0).1

/-- What the scan of tick `k` makes of index `i`. -/
def tickTarget (net : Net) (k i : Nat) (t : Target) : Target :=
  (tickBody net k i t 0).1

/-- What the scans of the `n` ticks `k`, `k + 1`, ... make of index `i`. -/
def ticksTarget (net : Net) (i : Nat) : Nat → Nat → Target → Target
  | _, 0, t => t
  | k, n + 1, t => ticksTarget net i (k + 1) n (tickTarget net k i t)

/-- What the closing loop makes of index `i`. -/
def finalTarget (t : Target) : Target :=
  (finalBody 0 t 0).1

/-- Index `i` when the call returns after `n` ticks of the polling loop. -/
def runTarget (tls : Bool) (program : String) (net : Net) (n i : Nat) (s : Slot) : Target :=
  finalTarget (ticksTarget net i 0 n (setupTarget tls program net i s))

/-- The batch after the setup loop and `n` ticks of the polling loop. -/
def afterTicks (tls : Bool) (program : String) (net : Net) (slots : List Slot) : Nat → Batch
  | 0 => setup tls program net slots
  | n + 1 => tick net n (afterTicks tls program net slots n)

/-- The clock test of the polling loop fails in its `K`-th evaluation: the budget
has elapsed. -/
def budgetElapsed (net : Net) (K : Nat) : Prop :=
  ¬ ((net.time K : Int) - ((net.starttime % 2 ^ 32 : Nat) : Int) < ZBX_AGENT_MAX_RESPONSE_TIME * 2)

instance (net : Net) (K : Nat) : Decidable (budgetElapsed net K) := by
  unfold budgetElapsed; infer_instance

/-- The security mode of the item is one the build can serve. -/
def tlsAdmitted (tls : Bool) (item : DC_ITEM) : Prop :=
  item.tls_connect = ZBX_TCP_SEC_UNENCRYPTED
    ∨ (tls = true ∧ (item.tls_connect = ZBX_TCP_SEC_TLS_CERT
        ∨ item.tls_connect = ZBX_TCP_SEC_TLS_PSK))

/-- The six status codes of a polled target. -/
def outcomeCodes : List Int :=
  [SUCCEED, NOTSUPPORTED, AGENT_ERROR, NETWORK_ERROR, CONFIG_ERROR, TIMEOUT_ERROR]

/-- The value of the last assignment the call has made to `errcodes[i]`, `none`
when it has made none. -/
def lastErrWrite (t : Target) : Option Int :=
  t.trace.foldl (fun acc e => match e with
    | Ev.errcode v => some v
    | _ => acc) none

/-- Invariant of an eligible target between the steps of the batch: it is still
being polled, or it is terminal and `errcodes[i]` holds one of the six status
codes, written by the call. -/
def Settled (t : Target) : Prop :=
  t.conn_status = CONNECT_SENT ∨ t.conn_status = REQ_SENT ∨
    ((t.conn_status = FAIL ∨ t.conn_status = SKIPPED) ∧ t.errcode ∈ outcomeCodes ∧
      lastErrWrite t = some t.errcode)

/-- Invariant of a target whose socket `fd` was created: the descriptor is still
in `s[i].socket` and `zbx_tcp_close` has not been called, or the receive step has
closed it and cleared the field. -/
def SockInv (fd : Int) (t : Target) : Prop :=
  ((t.conn_status = CONNECT_SENT ∨ t.conn_status = REQ_SENT ∨ t.conn_status = FAIL) ∧
      t.socket = fd ∧ closes t = []) ∨
    (t.conn_status = FAIL ∧ t.socket = 0 ∧ closes t = [fd])

/-- The call creates a socket for index `i`: the item is of the agent type, its
security mode is served, and `socket()` does not fail. -/
def socketCreated (tls : Bool) (net : Net) (i : Nat) (s : Slot) : Prop :=
  s.item.type = ITEM_TYPE_ZABBIX ∧ tlsAdmitted tls s.item ∧ net.socket i ≠ ZBX_SOCKET_ERROR

/-! ## Concrete inputs -/

/-- An agent item with security mode "none". -/
def item0 : DC_ITEM :=
  { type := 0, tls_connect := 1, host := "host", addr := "192.0.2.1", port := 10050,
    key := "agent.ping" }

/-- A result as `init_result` leaves it: nothing set. -/
def result0 : AGENT_RESULT := { msg := none, text := none }

/-- A receive step that returns `len` and stores the bytes `resp`, followed by the
terminator. -/
def recvOf (len : Int) (resp : List Char) : RecvResult :=
  { received_len := len, buffer := resp ++ [NUL], read_bytes := resp.length }

/-- A call of `get_value_agent` in which connect and send succeed and the receive
step reports `r`. -/
def callOf (r : RecvResult) : AgentCall :=
  { connect := 0, send := 0, recv := r, timed_out := -1, strerror := [] }

/-- Index 0 of a batch, for `item0`, with descriptor 5, in state `status`. -/
def target0 (status : Int) : Target :=
  { item := item0, socket := 5, conn_status := status, errcode := 42, result := result0,
    trace := [] }

/-- A network in which every step succeeds: descriptor 5, the connect is in
progress and completes in the first tick, the request is sent, data are readable
and the receive step reports `r`; the clock advances one second per tick. -/
def net0 (r : RecvResult) : Net where
  socket := fun _ => 5
  gethostbyname := fun _ => true
  connect := fun _ => -1
  einprogress := fun _ => true
  getsockopt_ret := fun _ _ => 0
  getsockopt_result := fun _ _ => 0
  fionread := fun _ _ => 1
  send := fun _ _ => 0
  recv := fun _ _ => r
  strerror := fun _ _ => []
  starttime := 100
  time := fun k => 100 + k

/-- An item that is not of the agent type (an SNMP item). -/
def itemOther : DC_ITEM :=
  { type := 1, tls_connect := 1, host := "switch", addr := "192.0.2.7", port := 161,
    key := "ifInOctets" }

/-- A batch of two requests, an agent item and an item of another type, whose
`errcodes` entries hold 42 when the call is made. -/
def slotsMixed : List Slot :=
  [{ item := item0, result := result0, errcode := 42 },
   { item := itemOther, result := result0, errcode := 42 }]

/-- A network in which the agent answers "1" in the first tick in which its
response is awaited. -/
def netAnswer : Net := net0 (recvOf 1 ['1'])

/-- A network in which `socket()` returns descriptor 0 and the connect never
completes (`getsockopt` keeps failing). -/
def netFdZeroPending : Net :=
  { net0 (recvOf 1 ['1']) with socket := fun _ => 0, getsockopt_ret := fun _ _ => -1 }

/-- A network in which `socket()` returns descriptor 0 and the name of the host
is not resolved. -/
def netFdZeroNoHost : Net :=
  { net0 (recvOf 1 ['1']) with socket := fun _ => 0, gethostbyname := fun _ => false }

/-- A network in which the connect never completes (`getsockopt` keeps failing). -/
def netPending : Net :=
  { net0 (recvOf 1 ['1']) with getsockopt_ret := fun _ _ => -1 }

/-- A batch of one agent request. -/
def slotsOne : List Slot := [{ item := item0, result := result0, errcode := 42 }]

/-- A network in which the connection is refused: the first `getsockopt` finds the
pending error ECONNREFUSED (111), which the read clears, the later `zbx_tcp_send`
fails, and no data ever arrive. -/
def netRefused : Net :=
  { net0 (recvOf 1 ['1']) with
    getsockopt_result := fun _ k => if k = 0 then 111 else 0
    send := fun _ _ => -1
    fionread := fun _ _ => 0 }

/-- A network in which the connect completes, `zbx_tcp_send` fails, and no data
ever arrive. -/
def netSendFails : Net :=
  { net0 (recvOf 1 ['1']) with send := fun _ _ => -1, fionread := fun _ _ => 0 }

/-- A network in which `connect()` fails at once with an error other than
EINPROGRESS. -/
def netConnectFails : Net :=
  { net0 (recvOf 1 ['1']) with connect := fun _ => -1, einprogress := fun _ => false }

/-- The target is one of those the counter `active_agents` still counts: it is
being polled, or it failed in `handle_socket_operation` before any receive step
(state FAIL with its socket never closed). -/
def counted (t : Target) : Bool :=
  decide (t.conn_status = CONNECT_SENT ∨ t.conn_status = REQ_SENT ∨
    (t.conn_status = FAIL ∧ closes t = []))

/-- The target is non-terminal: its state is CONNECT_SENT or REQ_SENT. -/
def nonTerminal (t : Target) : Bool :=
  decide (t.conn_status = CONNECT_SENT ∨ t.conn_status = REQ_SENT)

instance (tls : Bool) (item : DC_ITEM) : Decidable (tlsAdmitted tls item) := by
  unfold tlsAdmitted; infer_instance

/-- A network that answers target 0 like `netAnswer` and in which every other
target fails name resolution. -/
def netOthersFail : Net :=
  { netAnswer with gethostbyname := fun i => decide (i = 0) }

/-- A batch of two agent requests and one of another type. -/
def slotsThree : List Slot :=
  [{ item := item0, result := result0, errcode := 42 },
   { item := item0, result := result0, errcode := 7 },
   { item := itemOther, result := result0, errcode := 42 }]

/-- A batch of three requests with the same index 0 as `slotsThree` and other
requests at the other indexes. -/
def slotsThreeB : List Slot :=
  [{ item := item0, result := result0, errcode := 42 },
   { item := itemOther, result := result0, errcode := 0 },
   { item := item0, result := result0, errcode := 1 }]

/-- A network in which the name of no host is resolved. -/
def netNoHost : Net :=
  { net0 (recvOf 1 ['1']) with gethostbyname := fun _ => false }

/-- An agent item whose security mode is "pre-shared key". -/
def itemPsk : DC_ITEM :=
  { type := 0, tls_connect := 2, host := "host", addr := "192.0.2.2", port := 10050,
    key := "agent.ping" }

/-- A batch of two agent requests: one with security mode "pre-shared key", one
unencrypted. -/
def slotsPskPlain : List Slot :=
  [{ item := itemPsk, result := result0, errcode := 42 },
   { item := item0, result := result0, errcode := 42 }]

/-! ## The history storage: `history_clickhouse.c` -/

/-- One row of the history table of the storage: the item, the clock and the
nanoseconds of the value, and the value. -/
structure HistoryRow where
  /-- Column `itemid`. -/
  itemid : Nat
  /-- Column `clock`. -/
  clock : Int
  /-- Column `ns`. -/
  ns : Int
  /-- The value columns. -/
  value : String
  deriving DecidableEq, Repr

/-- The type `zbx_history_record_t`: a timestamp and a value. -/
structure zbx_history_record_t where
  /-- The field `timestamp.sec`. -/
  sec : Int
  /-- The field `timestamp.ns`. -/
  ns : Int
  /-- The field `value`. -/
  value : String
  deriving DecidableEq, Repr

/-- The function `clickhouse_get_values`: the returned status and the vector
`values`.  `ret` is initialised to SUCCEED and line 466 is `return ret;`, placed
("just for testing") before the first statement that touches the storage, so
the query and the parsing below it are never reached. -/
def clickhouse_get_values (_storage : List HistoryRow) (_itemid : Nat) (_start _count _end : Int)
    (values : List zbx_history_record_t) : Int × List zbx_history_record_t :=
  let ret := SUCCEED
  (ret, values)

/-- The behaviour that the header comment of `clickhouse_get_values` describes:
the rows of the item with clock in `]start, end]`, at most `count` of them (all of
them when `count` is zero), are appended to `values`. -/
def get_values_documented (storage : List HistoryRow) (itemid : Nat) (start count end_ : Int)
    (values : List zbx_history_record_t) : List zbx_history_record_t :=
  let rows := storage.filter (fun r => r.itemid = itemid ∧ start < r.clock ∧ r.clock ≤ end_)
  let taken := if count = 0 then rows else rows.take count.toNat
  values ++ taken.map (fun r => { sec := r.clock, ns := r.ns, value := r.value })

/-- The writes that the call has made to the outcome slot of a target
(`errcodes[i]` and `results[i]`), in order. -/
def outcomeWrites (t : Target) : List Ev :=
  t.trace.filter (fun e => match e with
    | Ev.close _ => false
    | _ => true)

/-- Target `i` meets no pending socket error while connecting and no send
failure. -/
def quiet (net : Net) (i : Nat) : Prop :=
  (∀ k, net.getsockopt_ret i k < 0 ∨ net.getsockopt_result i k = 0) ∧
    ∀ k, net.send i k = SUCCEED

/-- Invariant of a target that meets no connect or send error: it is being
polled and nothing has been written to its outcome slot, or it is terminal. -/
def Unwritten (t : Target) : Prop :=
  ((t.conn_status = CONNECT_SENT ∨ t.conn_status = REQ_SENT) ∧ outcomeWrites t = []) ∨
    t.conn_status = FAIL ∨ t.conn_status = SKIPPED

/-- Invariant of every target at a tick boundary: it was skipped before a socket
was created for it, or it satisfies `SockInv` for its descriptor. -/
def HandleInv (net : Net) (i : Nat) (t : Target) : Prop :=
  (t.conn_status = SKIPPED ∧ (t.socket = 0 ∨ t.socket = ZBX_SOCKET_ERROR) ∧ closes t = []) ∨
    (net.socket i ≠ ZBX_SOCKET_ERROR ∧ SockInv (net.socket i) t)

/-- A network in which the agent answers with the bare not-supported sentinel. -/
def netNotSupported : Net := net0 (recvOf 16 ZBX_NOTSUPPORTED)

instance (tls : Bool) (net : Net) (i : Nat) (s : Slot) : Decidable (socketCreated tls net i s) := by
  unfold socketCreated; infer_instance

/-- The receive step of the target has been completed: `zbx_tcp_close` has been
called on its socket (before the closing loop only the receive step calls it). -/
def received (t : Target) : Bool := decide (closes t ≠ [])

/-- The number of indexes `j`, counted from `i` on, whose slot satisfies `q j`. -/
def countFrom (q : Nat → Slot → Bool) : Nat → List Slot → Nat
  | _, [] => 0
  | i, s :: ss => (if q i s then 1 else 0) + countFrom q (i + 1) ss

/-- The number of sockets that the setup loop creates for the batch. -/
def createdCount (tls : Bool) (net : Net) (slots : List Slot) : Nat :=
  countFrom (fun j s => decide (socketCreated tls net j s)) 0 slots

/-- The call has not written TIMEOUT_ERROR to `errcodes[i]`. -/
def noTimeoutWrite (t : Target) : Prop := Ev.errcode TIMEOUT_ERROR ∉ t.trace

/-- The arrays and the counter at the point of a loop where its body has handled
the first `j` indexes: the handled prefix with the counter it leaves, followed by
the indexes not yet handled. -/
def scanPrefix (body : Nat → Target → Nat → Target × Nat) (j : Nat) (ts : List Target)
    (a : Nat) : List Target × Nat :=
  ((forLoop body 0 (ts.take j) a).1 ++ ts.drop j, (forLoop body 0 (ts.take j) a).2)

/-! # Properties -/

/-! ## Trimming in place -/

theorem cstr_nul_free (buf : List Char) : ∀ c ∈ cstr buf, c ≠ NUL := by
  intro c hc
  have := List.mem_takeWhile_imp hc
  simpa using this

theorem cstr_append_terminated (s r : List Char) (hs : ∀ c ∈ s, c ≠ NUL) (hr : Terminated r) :
    cstr (s ++ r) = s := by
  induction s with
  | nil =>
    rcases hr with rfl | ⟨r', rfl⟩
    · simp [cstr]
    · simp [cstr]
  | cons a s ih =>
    have ha : a ≠ NUL := hs a (by simp)
    have := ih (fun c hc => hs c (by simp [hc]))
    simp only [cstr] at this ⊢
    simp only [List.cons_append, List.takeWhile_cons, ha, ne_eq, not_false_eq_true, decide_True,
      if_true, this]

theorem drop_cstr_terminated (buf : List Char) : Terminated (buf.drop (cstr buf).length) := by
  induction buf with
  | nil => left; simp [cstr]
  | cons a buf ih =>
    by_cases ha : a = NUL
    · right; exact ⟨buf, by simp [cstr, List.takeWhile_cons, ha]⟩
    · simpa [cstr, List.takeWhile_cons, ha] using ih

theorem terminated_replicate (k : Nat) (r : List Char) (hr : Terminated r) :
    Terminated (List.replicate k NUL ++ r) := by
  cases k with
  | zero => simpa using hr
  | succ k => right; exact ⟨List.replicate k NUL ++ r, by simp [List.replicate_succ]⟩

theorem cstr_zbx_rtrim (buf cl : List Char) :
    cstr (zbx_rtrim buf cl) = ((cstr buf).reverse.dropWhile (fun c => c ∈ cl)).reverse := by
  unfold zbx_rtrim
  simp only [List.append_assoc]
  apply cstr_append_terminated
  · intro c hc
    apply cstr_nul_free buf
    have h1 : c ∈ (cstr buf).reverse.dropWhile (fun c => decide (c ∈ cl)) := by simpa using hc
    have h2 := (List.dropWhile_sublist _).subset h1
    simpa using h2
  · exact terminated_replicate _ _ (drop_cstr_terminated buf)

theorem dropWhile_length_eq {α : Type} (p : α → Bool) (l : List α)
    (h : (l.dropWhile p).length = l.length) : l.dropWhile p = l := by
  cases l with
  | nil => rfl
  | cons a l =>
    by_cases hp : p a = true
    · have h1 : ((a :: l).dropWhile p) = l.dropWhile p := by simp [List.dropWhile_cons, hp]
      rw [h1] at h
      have := (List.dropWhile_sublist p (l := l)).length_le
      simp at h; omega
    · simp [List.dropWhile_cons, hp]

theorem cstr_zbx_ltrim (buf cl : List Char) :
    cstr (zbx_ltrim buf cl) = (cstr buf).dropWhile (fun c => c ∈ cl) := by
  unfold zbx_ltrim
  simp only
  split
  · next h => exact (dropWhile_length_eq _ _ h).symm
  · apply cstr_append_terminated
    · intro c hc
      exact cstr_nul_free buf c ((List.dropWhile_sublist _).subset hc)
    · right; exact ⟨_, rfl⟩

theorem cstr_trim (buf : List Char) :
    cstr (zbx_ltrim (zbx_rtrim buf [' ', CR, LF]) [' ']) = trimmed (cstr buf) := by
  rw [cstr_zbx_ltrim, cstr_zbx_rtrim]; rfl

/-! ## The response classifier (C1, C2, C3) -/

theorem get_value_agent_received (tls : Bool) (program : String) (w : AgentCall) (item : DC_ITEM)
    (result : AGENT_RESULT) (h : responseReceived tls w item) :
    get_value_agent tls program w item result = get_value_agent_classify item w.recv result := by
  obtain ⟨h1, h2, h3, h4⟩ := h
  unfold get_value_agent
  simp [h1, h2, h3, h4]

theorem hso_req_sent (net : Net) (i k : Nat) (t : Target) (a : Nat)
    (hs : t.conn_status = REQ_SENT) (hr : (net.recv i k).received_len ≠ FAIL) :
    ((handle_socket_operation net i k t a).1.errcode,
      (handle_socket_operation net i k t a).1.result)
      = get_value_agent_classify t.item (net.recv i k) t.result := by
  unfold handle_socket_operation recv_and_classify get_value_agent_classify
  have h1 : ¬ (REQ_SENT = SOCKET_CREATED) := by decide
  have h2 : ¬ (REQ_SENT = CONNECT_SENT) := by decide
  simp only [hs, h1, h2, if_false, if_true, hr, ne_eq, not_false_eq_true]
  split_ifs <;>
    simp [Target.setStatus, Target.setSocket, Target.tcpClose, Target.setErr, Target.setMsg,
      Target.setText]

theorem classify_of_trimmed (item : DC_ITEM) (r : RecvResult) (result : AGENT_RESULT) :
    (trimmed (cstr r.buffer) = ZBX_NOTSUPPORTED →
        (get_value_agent_classify item r result).1 = NOTSUPPORTED) ∧
    (trimmed (cstr r.buffer) = ZBX_ERROR →
        get_value_agent_classify item r result
          = (AGENT_ERROR, SET_MSG_RESULT result MSG_AGENT_ERROR)) ∧
    (trimmed (cstr r.buffer) ≠ ZBX_NOTSUPPORTED → trimmed (cstr r.buffer) ≠ ZBX_ERROR →
        r.received_len = 0 →
        get_value_agent_classify item r result
          = (NETWORK_ERROR, SET_MSG_RESULT result (MSG_EMPTY item.addr))) ∧
    (trimmed (cstr r.buffer) ≠ ZBX_NOTSUPPORTED → trimmed (cstr r.buffer) ≠ ZBX_ERROR →
        r.received_len ≠ 0 →
        get_value_agent_classify item r result
          = (SUCCEED, { result with text := some (trimmed (cstr r.buffer)) })) := by
  have hne : ZBX_NOTSUPPORTED ≠ ZBX_ERROR := by decide
  unfold get_value_agent_classify
  simp only [streq, cstr_trim, beq_iff_eq, set_result_type_text]
  refine ⟨?_, ?_, ?_, ?_⟩
  · intro h; simp [h]; split_ifs <;> rfl
  · intro h; simp [h, hne.symm]
  · intro h1 h2 h3; simp [h1, h2, h3]
  · intro h1 h2 h3; simp [h1, h2, h3]

theorem classify_notsupported_suffix (item : DC_ITEM) (r : RecvResult) (result : AGENT_RESULT)
    (d : List Char) (hd : d ≠ []) (hnul : ∀ c ∈ d, c ≠ NUL)
    (h : holds r (ZBX_NOTSUPPORTED ++ NUL :: d)) :
    get_value_agent_classify item r result = (NOTSUPPORTED, SET_MSG_RESULT result d) := by
  obtain ⟨hlen, junk, hbuf⟩ := h
  have hsent : ∀ c ∈ ZBX_NOTSUPPORTED, c ≠ NUL := by decide
  have hc : cstr r.buffer = ZBX_NOTSUPPORTED := by
    rw [hbuf, List.append_assoc]
    exact cstr_append_terminated _ _ hsent (Or.inr ⟨_, rfl⟩)
  have hr : zbx_rtrim r.buffer [' ', CR, LF] = r.buffer := by
    unfold zbx_rtrim
    rw [hc]
    have : (ZBX_NOTSUPPORTED.reverse.dropWhile (fun c => decide (c ∈ [' ', CR, LF]))).reverse
        = ZBX_NOTSUPPORTED := by decide
    simp only [this]
    rw [hbuf]
    simp [ZBX_NOTSUPPORTED]
  have hl : zbx_ltrim r.buffer [' '] = r.buffer := by
    unfold zbx_ltrim
    rw [hc]
    have : (ZBX_NOTSUPPORTED.dropWhile (fun c => decide (c ∈ [' ']))) = ZBX_NOTSUPPORTED := by
      decide
    simp only [this, if_true]
  have hdl : 0 < d.length := List.length_pos.mpr hd
  unfold get_value_agent_classify
  simp only [hr, hl, streq, hc, beq_self_eq_true, if_true]
  have hlt : sizeof_ZBX_NOTSUPPORTED < r.read_bytes := by
    rw [hlen]; simp [sizeof_ZBX_NOTSUPPORTED]; omega
  have hdrop : cstr (r.buffer.drop sizeof_ZBX_NOTSUPPORTED) = d := by
    rw [hbuf]
    have : (ZBX_NOTSUPPORTED ++ NUL :: d ++ NUL :: junk).drop sizeof_ZBX_NOTSUPPORTED
        = d ++ NUL :: junk := by
      simp [ZBX_NOTSUPPORTED, sizeof_ZBX_NOTSUPPORTED]
    rw [this]
    exact cstr_append_terminated _ _ hnul (Or.inr ⟨_, rfl⟩)
  simp [hlt, hdrop]

theorem classify_notsupported_alone (item : DC_ITEM) (r : RecvResult) (result : AGENT_RESULT)
    (h : holds r ZBX_NOTSUPPORTED) :
    get_value_agent_classify item r result
      = (NOTSUPPORTED, SET_MSG_RESULT result MSG_NOT_SUPPORTED) := by
  obtain ⟨hlen, junk, hbuf⟩ := h
  have hsent : ∀ c ∈ ZBX_NOTSUPPORTED, c ≠ NUL := by decide
  have hc : cstr r.buffer = ZBX_NOTSUPPORTED := by
    rw [hbuf]
    exact cstr_append_terminated _ _ hsent (Or.inr ⟨_, rfl⟩)
  have ht : trimmed (cstr r.buffer) = ZBX_NOTSUPPORTED := by rw [hc]; decide
  unfold get_value_agent_classify
  simp only [streq, cstr_trim, ht, beq_self_eq_true, if_true]
  have hlt : ¬ sizeof_ZBX_NOTSUPPORTED < r.read_bytes := by
    rw [hlen]; simp [sizeof_ZBX_NOTSUPPORTED]
  simp [hlt]

/-- C1: in the single-target path and in the batch path (state REQ_SENT), a
received response made of the not-supported sentinel, a NUL byte and a non-empty
NUL-free text `d` gives status NOTSUPPORTED with message exactly `d`, and a
response that is exactly the sentinel gives NOTSUPPORTED with the generic message
"Not supported by Zabbix Agent". -/
theorem notsupported_sentinel_message (tls : Bool) (program : String) (w : AgentCall)
    (item : DC_ITEM) (result : AGENT_RESULT) (net : Net) (i k : Nat) (t : Target) (a : Nat)
    (d : List Char) (hd : d ≠ []) (hnul : ∀ c ∈ d, c ≠ NUL)
    (hw : responseReceived tls w item)
    (hs : t.conn_status = REQ_SENT) (hr : (net.recv i k).received_len ≠ FAIL) :
    (holds w.recv (ZBX_NOTSUPPORTED ++ NUL :: d) →
      (get_value_agent tls program w item result).1 = NOTSUPPORTED ∧
      (get_value_agent tls program w item result).2.msg = some d) ∧
    (holds w.recv ZBX_NOTSUPPORTED →
      (get_value_agent tls program w item result).1 = NOTSUPPORTED ∧
      (get_value_agent tls program w item result).2.msg = some MSG_NOT_SUPPORTED) ∧
    (holds (net.recv i k) (ZBX_NOTSUPPORTED ++ NUL :: d) →
      (handle_socket_operation net i k t a).1.errcode = NOTSUPPORTED ∧
      (handle_socket_operation net i k t a).1.result.msg = some d) ∧
    (holds (net.recv i k) ZBX_NOTSUPPORTED →
      (handle_socket_operation net i k t a).1.errcode = NOTSUPPORTED ∧
      (handle_socket_operation net i k t a).1.result.msg = some MSG_NOT_SUPPORTED) := by
  have hb := hso_req_sent net i k t a hs hr
  rw [Prod.ext_iff] at hb
  simp only at hb
  rw [get_value_agent_received tls program w item result hw, hb.1, hb.2]
  refine ⟨fun h => ?_, fun h => ?_, fun h => ?_, fun h => ?_⟩
  · rw [classify_notsupported_suffix item _ result d hd hnul h]; simp [SET_MSG_RESULT]
  · rw [classify_notsupported_alone item _ result h]; simp [SET_MSG_RESULT]
  · rw [classify_notsupported_suffix t.item _ t.result d hd hnul h]; simp [SET_MSG_RESULT]
  · rw [classify_notsupported_alone t.item _ t.result h]; simp [SET_MSG_RESULT]

/-- Witness of C1: the response "ZBX_NOTSUPPORTED\0custom reason" gives
NOTSUPPORTED with message "custom reason" on both paths. -/
theorem notsupported_sentinel_message_witness :
    ((get_value_agent false "server"
        (callOf (recvOf 30 (ZBX_NOTSUPPORTED ++ NUL :: "custom reason".toList)))
        item0 result0).1 = NOTSUPPORTED ∧
      (get_value_agent false "server"
        (callOf (recvOf 30 (ZBX_NOTSUPPORTED ++ NUL :: "custom reason".toList)))
        item0 result0).2.msg = some "custom reason".toList) ∧
    ((handle_socket_operation
        (net0 (recvOf 30 (ZBX_NOTSUPPORTED ++ NUL :: "custom reason".toList)))
        0 0 (target0 REQ_SENT) 1).1.errcode = NOTSUPPORTED ∧
      (handle_socket_operation
        (net0 (recvOf 30 (ZBX_NOTSUPPORTED ++ NUL :: "custom reason".toList)))
        0 0 (target0 REQ_SENT) 1).1.result.msg = some "custom reason".toList) :=
  have h := notsupported_sentinel_message false "server"
    (callOf (recvOf 30 (ZBX_NOTSUPPORTED ++ NUL :: "custom reason".toList))) item0 result0
    (net0 (recvOf 30 (ZBX_NOTSUPPORTED ++ NUL :: "custom reason".toList))) 0 0 (target0 REQ_SENT) 1
    "custom reason".toList (by decide) (by decide)
    ⟨Or.inl (by decide), by decide, by decide, by decide⟩ rfl (by decide)
  ⟨h.1 ⟨rfl, [], rfl⟩, h.2.2.1 ⟨rfl, [], rfl⟩⟩

/-- C2: for a response received with a non-zero byte count, on both paths the
status is SUCCEED exactly when the trimmed text is neither sentinel, the text
value is then exactly the trimmed text, and a trimmed text equal to "ZBX_ERROR"
gives AGENT_ERROR with the generic agent-error message. -/
theorem value_iff_not_sentinel (tls : Bool) (program : String) (w : AgentCall)
    (item : DC_ITEM) (result : AGENT_RESULT) (net : Net) (i k : Nat) (t : Target) (a : Nat)
    (hw : responseReceived tls w item) (hw0 : w.recv.received_len ≠ 0)
    (hs : t.conn_status = REQ_SENT) (hr : (net.recv i k).received_len ≠ FAIL)
    (hr0 : (net.recv i k).received_len ≠ 0) :
    (((get_value_agent tls program w item result).1 = SUCCEED ↔
        (trimmed (cstr w.recv.buffer) ≠ ZBX_NOTSUPPORTED ∧
          trimmed (cstr w.recv.buffer) ≠ ZBX_ERROR)) ∧
      ((get_value_agent tls program w item result).1 = SUCCEED →
        (get_value_agent tls program w item result).2.text
          = some (trimmed (cstr w.recv.buffer))) ∧
      (trimmed (cstr w.recv.buffer) = ZBX_ERROR →
        (get_value_agent tls program w item result).1 = AGENT_ERROR ∧
        (get_value_agent tls program w item result).2.msg = some MSG_AGENT_ERROR)) ∧
    (((handle_socket_operation net i k t a).1.errcode = SUCCEED ↔
        (trimmed (cstr (net.recv i k).buffer) ≠ ZBX_NOTSUPPORTED ∧
          trimmed (cstr (net.recv i k).buffer) ≠ ZBX_ERROR)) ∧
      ((handle_socket_operation net i k t a).1.errcode = SUCCEED →
        (handle_socket_operation net i k t a).1.result.text
          = some (trimmed (cstr (net.recv i k).buffer))) ∧
      (trimmed (cstr (net.recv i k).buffer) = ZBX_ERROR →
        (handle_socket_operation net i k t a).1.errcode = AGENT_ERROR ∧
        (handle_socket_operation net i k t a).1.result.msg = some MSG_AGENT_ERROR)) := by
  have key : ∀ (it : DC_ITEM) (r : RecvResult) (res : AGENT_RESULT), r.received_len ≠ 0 →
      ((get_value_agent_classify it r res).1 = SUCCEED ↔
        (trimmed (cstr r.buffer) ≠ ZBX_NOTSUPPORTED ∧ trimmed (cstr r.buffer) ≠ ZBX_ERROR)) ∧
      ((get_value_agent_classify it r res).1 = SUCCEED →
        (get_value_agent_classify it r res).2.text = some (trimmed (cstr r.buffer))) ∧
      (trimmed (cstr r.buffer) = ZBX_ERROR →
        (get_value_agent_classify it r res).1 = AGENT_ERROR ∧
        (get_value_agent_classify it r res).2.msg = some MSG_AGENT_ERROR) := by
    intro it r res h0
    obtain ⟨c1, c2, -, c4⟩ := classify_of_trimmed it r res
    have iffp : (get_value_agent_classify it r res).1 = SUCCEED ↔
        (trimmed (cstr r.buffer) ≠ ZBX_NOTSUPPORTED ∧ trimmed (cstr r.buffer) ≠ ZBX_ERROR) := by
      constructor
      · intro h
        constructor
        · intro hn; rw [c1 hn] at h; exact absurd h (by decide)
        · intro he; rw [c2 he] at h; exact absurd (show AGENT_ERROR = SUCCEED from h) (by decide)
      · rintro ⟨h1, h2⟩; rw [c4 h1 h2 h0]
    refine ⟨iffp, ?_, ?_⟩
    · intro h
      obtain ⟨h1, h2⟩ := iffp.mp h
      rw [c4 h1 h2 h0]
    · intro he; rw [c2 he]; simp [SET_MSG_RESULT]
  have hb := hso_req_sent net i k t a hs hr
  rw [Prod.ext_iff] at hb
  simp only at hb
  rw [get_value_agent_received tls program w item result hw, hb.1, hb.2]
  exact ⟨key item w.recv result hw0, key t.item (net.recv i k) t.result hr0⟩

/-- Witness of C2: the response "  12 \r\n" gives SUCCEED with text "12" on both
paths. -/
theorem value_iff_not_sentinel_witness :
    (get_value_agent false "server" (callOf (recvOf 7 [' ', ' ', '1', '2', ' ', CR, LF]))
        item0 result0).2.text = some ['1', '2'] ∧
    (handle_socket_operation (net0 (recvOf 7 [' ', ' ', '1', '2', ' ', CR, LF]))
        0 0 (target0 REQ_SENT) 1).1.result.text = some ['1', '2'] :=
  have h := value_iff_not_sentinel false "server"
    (callOf (recvOf 7 [' ', ' ', '1', '2', ' ', CR, LF])) item0 result0
    (net0 (recvOf 7 [' ', ' ', '1', '2', ' ', CR, LF])) 0 0 (target0 REQ_SENT) 1
    ⟨Or.inl (by decide), by decide, by decide, by decide⟩ (by decide) rfl (by decide) (by decide)
  ⟨h.1.2.1 (h.1.1.mpr (by decide)), h.2.2.1 (h.2.1.mpr (by decide))⟩

/-- C3, counterexample: with zero bytes reported and a buffer that holds the
not-supported sentinel, both copies of the classifier answer NOTSUPPORTED, not
NETWORK_ERROR: the zero-byte rule is not applied first. -/
theorem empty_rule_not_first :
    (get_value_agent false "server" (callOf (recvOf 0 ZBX_NOTSUPPORTED)) item0 result0).1
        = NOTSUPPORTED ∧
    (get_value_agent false "server" (callOf (recvOf 0 ZBX_NOTSUPPORTED)) item0 result0).1
        ≠ NETWORK_ERROR ∧
    (handle_socket_operation (net0 (recvOf 0 ZBX_NOTSUPPORTED)) 0 0 (target0 REQ_SENT) 1).1.errcode
        = NOTSUPPORTED ∧
    (handle_socket_operation (net0 (recvOf 0 ZBX_NOTSUPPORTED)) 0 0 (target0 REQ_SENT) 1).1.errcode
        ≠ NETWORK_ERROR := by
  decide

/-- C3, amended: when the receive step reports zero bytes, both copies of the
classifier answer NETWORK_ERROR with the "Received empty response ..." message
provided the trimmed buffer text is neither sentinel (as it is when the buffer is
empty); the sentinel rules come first, so a trimmed text equal to a sentinel
gives NOTSUPPORTED or AGENT_ERROR even then. -/
theorem empty_response_network_error (tls : Bool) (program : String) (w : AgentCall)
    (item : DC_ITEM) (result : AGENT_RESULT) (net : Net) (i k : Nat) (t : Target) (a : Nat)
    (hw : responseReceived tls w item) (hw0 : w.recv.received_len = 0)
    (hs : t.conn_status = REQ_SENT) (hr0 : (net.recv i k).received_len = 0) :
    ((trimmed (cstr w.recv.buffer) ≠ ZBX_NOTSUPPORTED → trimmed (cstr w.recv.buffer) ≠ ZBX_ERROR →
        (get_value_agent tls program w item result).1 = NETWORK_ERROR ∧
        (get_value_agent tls program w item result).2.msg = some (MSG_EMPTY item.addr)) ∧
      (cstr w.recv.buffer = [] →
        (get_value_agent tls program w item result).1 = NETWORK_ERROR ∧
        (get_value_agent tls program w item result).2.msg = some (MSG_EMPTY item.addr)) ∧
      (trimmed (cstr w.recv.buffer) = ZBX_NOTSUPPORTED →
        (get_value_agent tls program w item result).1 = NOTSUPPORTED) ∧
      (trimmed (cstr w.recv.buffer) = ZBX_ERROR →
        (get_value_agent tls program w item result).1 = AGENT_ERROR)) ∧
    ((trimmed (cstr (net.recv i k).buffer) ≠ ZBX_NOTSUPPORTED →
        trimmed (cstr (net.recv i k).buffer) ≠ ZBX_ERROR →
        (handle_socket_operation net i k t a).1.errcode = NETWORK_ERROR ∧
        (handle_socket_operation net i k t a).1.result.msg = some (MSG_EMPTY t.item.addr)) ∧
      (cstr (net.recv i k).buffer = [] →
        (handle_socket_operation net i k t a).1.errcode = NETWORK_ERROR ∧
        (handle_socket_operation net i k t a).1.result.msg = some (MSG_EMPTY t.item.addr)) ∧
      (trimmed (cstr (net.recv i k).buffer) = ZBX_NOTSUPPORTED →
        (handle_socket_operation net i k t a).1.errcode = NOTSUPPORTED) ∧
      (trimmed (cstr (net.recv i k).buffer) = ZBX_ERROR →
        (handle_socket_operation net i k t a).1.errcode = AGENT_ERROR)) := by
  have key : ∀ (it : DC_ITEM) (r : RecvResult) (res : AGENT_RESULT), r.received_len = 0 →
      (trimmed (cstr r.buffer) ≠ ZBX_NOTSUPPORTED → trimmed (cstr r.buffer) ≠ ZBX_ERROR →
        (get_value_agent_classify it r res).1 = NETWORK_ERROR ∧
        (get_value_agent_classify it r res).2.msg = some (MSG_EMPTY it.addr)) ∧
      (cstr r.buffer = [] →
        (get_value_agent_classify it r res).1 = NETWORK_ERROR ∧
        (get_value_agent_classify it r res).2.msg = some (MSG_EMPTY it.addr)) ∧
      (trimmed (cstr r.buffer) = ZBX_NOTSUPPORTED →
        (get_value_agent_classify it r res).1 = NOTSUPPORTED) ∧
      (trimmed (cstr r.buffer) = ZBX_ERROR →
        (get_value_agent_classify it r res).1 = AGENT_ERROR) := by
    intro it r res h0
    obtain ⟨c1, c2, c3, -⟩ := classify_of_trimmed it r res
    refine ⟨fun h1 h2 => ?_, fun he => ?_, c1, fun he => ?_⟩
    · rw [c3 h1 h2 h0]; simp [SET_MSG_RESULT]
    · have h1 : trimmed (cstr r.buffer) ≠ ZBX_NOTSUPPORTED := by rw [he]; decide
      have h2 : trimmed (cstr r.buffer) ≠ ZBX_ERROR := by rw [he]; decide
      rw [c3 h1 h2 h0]; simp [SET_MSG_RESULT]
    · rw [c2 he]
  have hr : (net.recv i k).received_len ≠ FAIL := by rw [hr0]; decide
  have hb := hso_req_sent net i k t a hs hr
  rw [Prod.ext_iff] at hb
  simp only at hb
  rw [get_value_agent_received tls program w item result hw, hb.1, hb.2]
  exact ⟨key item w.recv result hw0, key t.item (net.recv i k) t.result hr0⟩

/-- Witness of C3 (amended): zero bytes and an empty buffer give NETWORK_ERROR on
both paths. -/
theorem empty_response_network_error_witness :
    (get_value_agent false "server" (callOf (recvOf 0 [])) item0 result0).1 = NETWORK_ERROR ∧
    (handle_socket_operation (net0 (recvOf 0 [])) 0 0 (target0 REQ_SENT) 1).1.errcode
      = NETWORK_ERROR :=
  have h := empty_response_network_error false "server" (callOf (recvOf 0 [])) item0 result0
    (net0 (recvOf 0 [])) 0 0 (target0 REQ_SENT) 1
    ⟨Or.inl (by decide), by decide, by decide, by decide⟩ rfl rfl rfl
  ⟨(h.1.2.1 (by decide)).1, (h.2.2.1 (by decide)).1⟩

/-! ## The loops of the batch, index by index -/

theorem hso_fst_indep (net : Net) (i k : Nat) (t : Target) (a a' : Nat) :
    (handle_socket_operation net i k t a).1 = (handle_socket_operation net i k t a').1 := by
  unfold handle_socket_operation
  split_ifs <;> simp

theorem setupBody_fst_indep (tls : Bool) (program : String) (net : Net) (i : Nat) (t : Target)
    (a a' : Nat) :
    (setupBody tls program net i t a).1 = (setupBody tls program net i t a').1 := by
  unfold setupBody
  simp only
  split_ifs <;> first | exact hso_fst_indep _ _ _ _ _ _ | rfl

theorem tickBody_fst_indep (net : Net) (k i : Nat) (t : Target) (a a' : Nat) :
    (tickBody net k i t a).1 = (tickBody net k i t a').1 := by
  unfold tickBody
  split_ifs <;> first | exact hso_fst_indep _ _ _ _ _ _ | rfl

theorem finalBody_fst_indep (i j : Nat) (t : Target) (a a' : Nat) :
    (finalBody i t a).1 = (finalBody j t a').1 := by
  unfold finalBody
  simp only
  split_ifs <;> rfl

theorem forLoop_length (body : Nat → Target → Nat → Target × Nat) (start : Nat)
    (ts : List Target) (a : Nat) : (forLoop body start ts a).1.length = ts.length := by
  induction ts generalizing start a with
  | nil => rfl
  | cons t ts ih => simp [forLoop, ih]

theorem forLoop_getElem? (body : Nat → Target → Nat → Target × Nat)
    (hbody : ∀ i t a a', (body i t a).1 = (body i t a').1)
    (start : Nat) (ts : List Target) (a : Nat) (j : Nat) :
    (forLoop body start ts a).1[j]? = (ts[j]?).map (fun t => (body (start + j) t 0).1) := by
  induction ts generalizing start a j with
  | nil => simp [forLoop]
  | cons t ts ih =>
    cases j with
    | zero => simp [forLoop]; exact hbody _ _ _ _
    | succ j =>
      simp only [forLoop, List.getElem?_cons_succ]
      rw [ih]
      have : start + 1 + j = start + (j + 1) := by omega
      rw [this]

theorem setup_getElem? (tls : Bool) (program : String) (net : Net) (slots : List Slot) (j : Nat) :
    (setup tls program net slots).targets[j]? = (slots[j]?).map (setupTarget tls program net j) := by
  unfold setup
  simp only
  rw [forLoop_getElem? _ (setupBody_fst_indep tls program net)]
  simp only [List.getElem?_map, Option.map_map, Nat.zero_add]
  rfl

theorem tick_getElem? (net : Net) (k : Nat) (b : Batch) (j : Nat) :
    (tick net k b).targets[j]? = (b.targets[j]?).map (tickTarget net k j) := by
  unfold tick
  simp only
  rw [forLoop_getElem? _ (tickBody_fst_indep net k)]
  simp only [Nat.zero_add]
  rfl

theorem finish_getElem? (b : Batch) (j : Nat) :
    (finish b).targets[j]? = (b.targets[j]?).map finalTarget := by
  unfold finish
  simp only
  rw [forLoop_getElem? _ (fun i t a a' => finalBody_fst_indep i i t a a')]
  congr 1

theorem ticksTarget_succ (net : Net) (i k n : Nat) (t : Target) :
    ticksTarget net i k (n + 1) t = tickTarget net (k + n) i (ticksTarget net i k n t) := by
  induction n generalizing k t with
  | zero => simp [ticksTarget]
  | succ n ih =>
    rw [ticksTarget, ih, ticksTarget]
    have : k + 1 + n = k + (n + 1) := by omega
    rw [this]

theorem afterTicks_getElem? (tls : Bool) (program : String) (net : Net) (slots : List Slot)
    (n j : Nat) :
    (afterTicks tls program net slots n).targets[j]?
      = (slots[j]?).map (fun s => ticksTarget net j 0 n (setupTarget tls program net j s)) := by
  induction n with
  | zero => simp [afterTicks, ticksTarget, setup_getElem?]
  | succ n ih =>
    rw [afterTicks, tick_getElem?, ih]
    cases slots[j]? with
    | none => rfl
    | some s => simp [ticksTarget_succ]

theorem pollLoop_some (net : Net) (fuel k : Nat) (b b' : Batch)
    (h : pollLoop net fuel k b = some b') :
    ∃ n, n < fuel ∧ ¬ loopCond net (k + n) b' ∧
      (∀ f : Nat → Batch, f 0 = b → (∀ m, f (m + 1) = tick net (k + m) (f m)) → f n = b') ∧
      (∀ f : Nat → Batch, f 0 = b → (∀ m, f (m + 1) = tick net (k + m) (f m)) →
        ∀ m, m < n → loopCond net (k + m) (f m)) := by
  induction fuel generalizing k b with
  | zero => simp [pollLoop] at h
  | succ fuel ih =>
    rw [pollLoop] at h
    split_ifs at h with hc
    · obtain ⟨n, hn, hexit, hf, hrun⟩ := ih (k + 1) (tick net k b) h
      refine ⟨n + 1, by omega, ?_, ?_, ?_⟩
      · have : k + (n + 1) = k + 1 + n := by omega
        rw [this]; exact hexit
      · intro f f0 fs
        have := hf (fun m => f (m + 1)) (by simp [fs, f0]) (by
          intro m; simp only; rw [fs (m + 1)]
          have : k + (m + 1) = k + 1 + m := by omega
          rw [this])
        exact this
      · intro f f0 fs m hm
        cases m with
        | zero => simpa [f0] using hc
        | succ m =>
          have := hrun (fun m => f (m + 1)) (by simp [fs, f0]) (by
            intro m; simp only; rw [fs (m + 1)]
            have : k + (m + 1) = k + 1 + m := by omega
            rw [this]) m (by omega)
          have e : k + (m + 1) = k + 1 + m := by omega
          rw [e]; exact this
    · injection h with h
      subst h
      exact ⟨0, by omega, by simpa using hc, fun f f0 _ => f0, fun _ _ _ m hm => by omega⟩

theorem async_some (tls : Bool) (program : String) (net : Net) (fuel : Nat) (slots : List Slot)
    (b : Batch) (h : get_value_agent_async tls program net fuel slots = some b) :
    ∃ n, n < fuel ∧ pollLoop net fuel 0 (setup tls program net slots)
        = some (afterTicks tls program net slots n) ∧
      b = finish (afterTicks tls program net slots n) ∧
      ¬ loopCond net n (afterTicks tls program net slots n) ∧
      (∀ m, m < n → loopCond net m (afterTicks tls program net slots m)) := by
  unfold get_value_agent_async at h
  rw [Option.map_eq_some'] at h
  obtain ⟨b0, hb0, hfin⟩ := h
  obtain ⟨n, hn, hexit, hf, hrun⟩ := pollLoop_some net fuel 0 _ _ hb0
  have e := hf (afterTicks tls program net slots) rfl (by intro m; simp [afterTicks])
  have r := hrun (afterTicks tls program net slots) rfl (by intro m; simp [afterTicks])
  subst e
  refine ⟨n, hn, hb0, hfin.symm, by simpa using hexit, ?_⟩
  intro m hm
  simpa using r m hm

theorem async_getElem? (tls : Bool) (program : String) (net : Net) (fuel : Nat)
    (slots : List Slot) (b : Batch)
    (h : get_value_agent_async tls program net fuel slots = some b) :
    ∃ n, n < fuel ∧ ∀ j, b.targets[j]? = (slots[j]?).map (runTarget tls program net n j) := by
  obtain ⟨n, hn, -, hb, -, -⟩ := async_some tls program net fuel slots b h
  refine ⟨n, hn, fun j => ?_⟩
  rw [hb, finish_getElem?, afterTicks_getElem?]
  cases slots[j]? with
  | none => rfl
  | some s => simp [runTarget]

theorem pollLoop_returns (net : Net) (K : Nat) (hK : budgetElapsed net K) (k : Nat) (hk : k ≤ K)
    (b : Batch) : ∃ b', pollLoop net (K + 1 - k) k b = some b' := by
  generalize h : K - k = d
  induction d generalizing k b with
  | zero =>
    have e : k = K := by omega
    subst e
    have : k + 1 - k = 1 := by omega
    rw [this, pollLoop]
    have hc : ¬ loopCond net k b := fun hc => hK hc.2
    simp [hc]
  | succ d ih =>
    have : K + 1 - k = (K + 1 - (k + 1)) + 1 := by omega
    rw [this, pollLoop]
    split_ifs
    · exact ih (k + 1) (by omega) _ (by omega)
    · exact ⟨b, rfl⟩

theorem async_returns (tls : Bool) (program : String) (net : Net) (slots : List Slot) (K : Nat)
    (hK : budgetElapsed net K) :
    ∃ b, get_value_agent_async tls program net (K + 1) slots = some b := by
  obtain ⟨b', hb'⟩ := pollLoop_returns net K hK 0 (Nat.zero_le _) (setup tls program net slots)
  rw [Nat.sub_zero] at hb'
  exact ⟨finish b', by simp [get_value_agent_async, hb']⟩

/-! ## The steps of one target -/

@[simp]
theorem setErr_item (t : Target) (v : Int) : (t.setErr v).item = t.item := rfl

@[simp]
theorem setErr_socket (t : Target) (v : Int) : (t.setErr v).socket = t.socket := rfl

@[simp]
theorem setErr_conn_status (t : Target) (v : Int) : (t.setErr v).conn_status = t.conn_status := rfl

@[simp]
theorem setErr_errcode (t : Target) (v : Int) : (t.setErr v).errcode = v := rfl

@[simp]
theorem setErr_result (t : Target) (v : Int) : (t.setErr v).result = t.result := rfl

@[simp]
theorem setErr_trace (t : Target) (v : Int) : (t.setErr v).trace = t.trace ++ [Ev.errcode v] := rfl

@[simp]
theorem setMsg_item (t : Target) (m : List Char) : (t.setMsg m).item = t.item := rfl

@[simp]
theorem setMsg_socket (t : Target) (m : List Char) : (t.setMsg m).socket = t.socket := rfl

@[simp]
theorem setMsg_conn_status (t : Target) (m : List Char) : (t.setMsg m).conn_status = t.conn_status := rfl

@[simp]
theorem setMsg_errcode (t : Target) (m : List Char) : (t.setMsg m).errcode = t.errcode := rfl

@[simp]
theorem setMsg_result (t : Target) (m : List Char) : (t.setMsg m).result = SET_MSG_RESULT t.result m := rfl

@[simp]
theorem setMsg_trace (t : Target) (m : List Char) : (t.setMsg m).trace = t.trace ++ [Ev.msg m] := rfl

@[simp]
theorem setText_item (t : Target) (c : List Char) : (t.setText c).item = t.item := rfl

@[simp]
theorem setText_socket (t : Target) (c : List Char) : (t.setText c).socket = t.socket := rfl

@[simp]
theorem setText_conn_status (t : Target) (c : List Char) : (t.setText c).conn_status = t.conn_status := rfl

@[simp]
theorem setText_errcode (t : Target) (c : List Char) : (t.setText c).errcode = t.errcode := rfl

@[simp]
theorem setText_result (t : Target) (c : List Char) : (t.setText c).result = set_result_type_text t.result c := rfl

@[simp]
theorem setText_trace (t : Target) (c : List Char) : (t.setText c).trace = t.trace ++ [Ev.text (cstr c)] := rfl

@[simp]
theorem setStatus_item (t : Target) (v : Int) : (t.setStatus v).item = t.item := rfl

@[simp]
theorem setStatus_socket (t : Target) (v : Int) : (t.setStatus v).socket = t.socket := rfl

@[simp]
theorem setStatus_conn_status (t : Target) (v : Int) : (t.setStatus v).conn_status = v := rfl

@[simp]
theorem setStatus_errcode (t : Target) (v : Int) : (t.setStatus v).errcode = t.errcode := rfl

@[simp]
theorem setStatus_result (t : Target) (v : Int) : (t.setStatus v).result = t.result := rfl

@[simp]
theorem setStatus_trace (t : Target) (v : Int) : (t.setStatus v).trace = t.trace := rfl

@[simp]
theorem setSocket_item (t : Target) (fd : Int) : (t.setSocket fd).item = t.item := rfl

@[simp]
theorem setSocket_socket (t : Target) (fd : Int) : (t.setSocket fd).socket = fd := rfl

@[simp]
theorem setSocket_conn_status (t : Target) (fd : Int) : (t.setSocket fd).conn_status = t.conn_status := rfl

@[simp]
theorem setSocket_errcode (t : Target) (fd : Int) : (t.setSocket fd).errcode = t.errcode := rfl

@[simp]
theorem setSocket_result (t : Target) (fd : Int) : (t.setSocket fd).result = t.result := rfl

@[simp]
theorem setSocket_trace (t : Target) (fd : Int) : (t.setSocket fd).trace = t.trace := rfl

@[simp]
theorem tcpClose_item (t : Target) : t.tcpClose.item = t.item := rfl

@[simp]
theorem tcpClose_socket (t : Target) : t.tcpClose.socket = t.socket := rfl

@[simp]
theorem tcpClose_conn_status (t : Target) : t.tcpClose.conn_status = t.conn_status := rfl

@[simp]
theorem tcpClose_errcode (t : Target) : t.tcpClose.errcode = t.errcode := rfl

@[simp]
theorem tcpClose_result (t : Target) : t.tcpClose.result = t.result := rfl

@[simp]
theorem tcpClose_trace (t : Target) : t.tcpClose.trace = t.trace ++ [Ev.close t.socket] := rfl

@[simp]
theorem closes_setErr (t : Target) (v : Int) : closes (t.setErr v) = closes t := by
  simp [closes, List.filterMap_append]

@[simp]
theorem lastErrWrite_setErr (t : Target) (v : Int) : lastErrWrite (t.setErr v) = some v := by
  simp [lastErrWrite, List.foldl_append]

@[simp]
theorem closes_setMsg (t : Target) (m : List Char) : closes (t.setMsg m) = closes t := by
  simp [closes, List.filterMap_append]

@[simp]
theorem lastErrWrite_setMsg (t : Target) (m : List Char) : lastErrWrite (t.setMsg m) = lastErrWrite t := by
  simp [lastErrWrite, List.foldl_append]

@[simp]
theorem closes_setText (t : Target) (c : List Char) : closes (t.setText c) = closes t := by
  simp [closes, List.filterMap_append]

@[simp]
theorem lastErrWrite_setText (t : Target) (c : List Char) : lastErrWrite (t.setText c) = lastErrWrite t := by
  simp [lastErrWrite, List.foldl_append]

@[simp]
theorem closes_setStatus (t : Target) (v : Int) : closes (t.setStatus v) = closes t := by
  simp [closes, List.filterMap_append]

@[simp]
theorem lastErrWrite_setStatus (t : Target) (v : Int) : lastErrWrite (t.setStatus v) = lastErrWrite t := by
  simp [lastErrWrite, List.foldl_append]

@[simp]
theorem closes_setSocket (t : Target) (fd : Int) : closes (t.setSocket fd) = closes t := by
  simp [closes, List.filterMap_append]

@[simp]
theorem lastErrWrite_setSocket (t : Target) (fd : Int) : lastErrWrite (t.setSocket fd) = lastErrWrite t := by
  simp [lastErrWrite, List.foldl_append]

@[simp]
theorem closes_tcpClose (t : Target) : closes t.tcpClose = closes t ++ [t.socket] := by
  simp [closes, List.filterMap_append]

@[simp]
theorem lastErrWrite_tcpClose (t : Target) : lastErrWrite t.tcpClose = lastErrWrite t := by
  simp [lastErrWrite, List.foldl_append]
theorem status_distinct :
    CONNECT_SENT ≠ SKIPPED ∧ CONNECT_SENT ≠ FAIL ∧ CONNECT_SENT ≠ CLOSED ∧
    CONNECT_SENT ≠ REQ_SENT ∧ CONNECT_SENT ≠ SOCKET_CREATED ∧
    REQ_SENT ≠ SKIPPED ∧ REQ_SENT ≠ FAIL ∧ REQ_SENT ≠ CLOSED ∧ REQ_SENT ≠ CONNECT_SENT ∧
    REQ_SENT ≠ SOCKET_CREATED ∧
    SOCKET_CREATED ≠ CONNECT_SENT ∧ SOCKET_CREATED ≠ REQ_SENT ∧
    FAIL ≠ CONNECT_SENT ∧ FAIL ≠ REQ_SENT ∧ FAIL ≠ SKIPPED ∧
    SKIPPED ≠ CONNECT_SENT ∧ SKIPPED ≠ REQ_SENT ∧ SKIPPED ≠ FAIL := by
  decide

theorem recv_and_classify_fields (r : RecvResult) (e : List Char) (t : Target) :
    (recv_and_classify r e t).item = t.item ∧
    (recv_and_classify r e t).socket = t.socket ∧
    (recv_and_classify r e t).conn_status = t.conn_status ∧
    closes (recv_and_classify r e t) = closes t ∧
    (recv_and_classify r e t).errcode ∈ outcomeCodes ∧
    lastErrWrite (recv_and_classify r e t) = some (recv_and_classify r e t).errcode := by
  unfold recv_and_classify
  simp only
  split_ifs <;> simp [outcomeCodes]

theorem tickTarget_of_terminal (net : Net) (k i : Nat) (t : Target)
    (h : t.conn_status = SKIPPED ∨ t.conn_status = FAIL ∨ t.conn_status = CLOSED) :
    tickTarget net k i t = t := by
  unfold tickTarget tickBody
  rw [if_pos h]

theorem tickTarget_of_connect_sent (net : Net) (k i : Nat) (t : Target)
    (h : t.conn_status = CONNECT_SENT) :
    tickTarget net k i t =
      if net.getsockopt_ret i k < 0 then t
      else if net.getsockopt_result i k ≠ 0 then
        (t.setMsg MSG_CONNECTION_FAILED).setErr NETWORK_ERROR
      else if net.send i k ≠ SUCCEED then
        (((t.setErr NETWORK_ERROR).setStatus FAIL).setMsg MSG_SEND_FAILED).setStatus REQ_SENT
      else t.setStatus REQ_SENT := by
  obtain ⟨h1, h2, h3, -, h5, -⟩ := status_distinct
  unfold tickTarget tickBody handle_socket_operation
  simp only [h, h1, h2, h3, h5, or_self, if_false, if_true]
  split_ifs <;> rfl

theorem tickTarget_of_req_sent (net : Net) (k i : Nat) (t : Target)
    (h : t.conn_status = REQ_SENT) :
    tickTarget net k i t =
      if net.fionread i k = 0 then t
      else (((recv_and_classify (net.recv i k) (net.strerror i k) t).tcpClose).setSocket
        0).setStatus FAIL := by
  obtain ⟨-, -, -, -, -, h1, h2, h3, h4, h5, -⟩ := status_distinct
  unfold tickTarget tickBody handle_socket_operation
  simp only [h, h1, h2, h3, h4, h5, or_self, if_false, if_true]
  split_ifs <;> rfl

theorem tickTarget_item (net : Net) (k i : Nat) (t : Target) :
    (tickTarget net k i t).item = t.item := by
  by_cases h0 : t.conn_status = SKIPPED ∨ t.conn_status = FAIL ∨ t.conn_status = CLOSED
  · rw [tickTarget_of_terminal net k i t h0]
  by_cases h1 : t.conn_status = CONNECT_SENT
  · rw [tickTarget_of_connect_sent net k i t h1]
    split_ifs <;> simp
  by_cases h2 : t.conn_status = REQ_SENT
  · rw [tickTarget_of_req_sent net k i t h2]
    split_ifs <;> simp [(recv_and_classify_fields _ _ t).1]
  · unfold tickTarget tickBody
    rw [if_neg h0, if_neg h1, if_neg h2]

theorem ticksTarget_item (net : Net) (i k n : Nat) (t : Target) :
    (ticksTarget net i k n t).item = t.item := by
  induction n generalizing k t with
  | zero => rfl
  | succ n ih => rw [ticksTarget, ih, tickTarget_item]

theorem finalTarget_eq (t : Target) :
    finalTarget t =
      if REQ_SENT = t.conn_status ∨ CONNECT_SENT = t.conn_status then
        ((if t.socket ≠ 0 then t.tcpClose else t).setMsg MSG_TIMED_OUT).setErr TIMEOUT_ERROR
      else (if t.socket ≠ 0 then t.tcpClose else t) := by
  unfold finalTarget finalBody
  by_cases hs : t.socket ≠ 0
  · simp only [hs, if_true, tcpClose_conn_status, ne_eq, not_false_eq_true]
    split_ifs <;> rfl
  · simp only [hs, if_false]
    split_ifs <;> rfl

theorem finalTarget_item (t : Target) : (finalTarget t).item = t.item := by
  rw [finalTarget_eq]
  split_ifs <;> simp

theorem tickTarget_settled (net : Net) (k i : Nat) (t : Target) (h : Settled t) :
    Settled (tickTarget net k i t) := by
  rcases h with h | h | ⟨h, he, hl⟩
  · rw [tickTarget_of_connect_sent net k i t h]
    unfold Settled
    split_ifs <;> simp [h]
  · rw [tickTarget_of_req_sent net k i t h]
    obtain ⟨-, -, -, -, r5, r6⟩ := recv_and_classify_fields (net.recv i k) (net.strerror i k) t
    unfold Settled
    split_ifs
    · simp [h]
    · right; right
      simp [r5, r6]
  · have h0 : t.conn_status = SKIPPED ∨ t.conn_status = FAIL ∨ t.conn_status = CLOSED := by
      rcases h with h | h
      · exact Or.inr (Or.inl h)
      · exact Or.inl h
    rw [tickTarget_of_terminal net k i t h0]
    exact Or.inr (Or.inr ⟨h, he, hl⟩)

theorem ticksTarget_settled (net : Net) (i k n : Nat) (t : Target) (h : Settled t) :
    Settled (ticksTarget net i k n t) := by
  induction n generalizing k t with
  | zero => exact h
  | succ n ih => rw [ticksTarget]; exact ih _ _ (tickTarget_settled net k i t h)

theorem finalTarget_settled (t : Target) (h : Settled t) :
    (finalTarget t).errcode ∈ outcomeCodes ∧
      lastErrWrite (finalTarget t) = some (finalTarget t).errcode := by
  obtain ⟨-, -, -, -, -, -, -, -, -, -, -, -, f1, f2, -, s1, s2, -⟩ := status_distinct
  rw [finalTarget_eq]
  rcases h with h | h | ⟨h, he, hl⟩
  · simp [h, outcomeCodes]
  · simp [h, outcomeCodes]
  · have hn : ¬ (REQ_SENT = t.conn_status ∨ CONNECT_SENT = t.conn_status) := by
      rcases h with h | h <;> rw [h] <;> simp [f1.symm, f2.symm, s1.symm, s2.symm]
    rw [if_neg hn]
    split_ifs <;> simp [he, hl]
theorem setupTarget_of_ineligible (tls : Bool) (program : String) (net : Net) (i : Nat)
    (s : Slot) (h : s.item.type ≠ ITEM_TYPE_ZABBIX) :
    setupTarget tls program net i s = (s.start.setStatus INIT).setStatus SKIPPED := by
  have h' : ITEM_TYPE_ZABBIX ≠ (s.start.setStatus INIT).item.type := fun e => h e.symm
  unfold setupTarget setupBody
  simp only
  rw [if_pos h']

theorem setupTarget_of_created (tls : Bool) (program : String) (net : Net) (i : Nat)
    (s : Slot) (h : socketCreated tls net i s) :
    setupTarget tls program net i s =
      if net.gethostbyname i = false then
        (((((s.start.setStatus INIT).setSocket (net.socket i)).setStatus
          SOCKET_CREATED).setMsg MSG_NO_HOSTNAME).setStatus FAIL).setErr CONFIG_ERROR
      else if net.connect i = ZBX_PROTO_ERROR ∧ net.einprogress i = false then
        (((((s.start.setStatus INIT).setSocket (net.socket i)).setStatus
          SOCKET_CREATED).setStatus FAIL).setErr CONFIG_ERROR).setMsg MSG_NO_CONNECT
      else
        (((s.start.setStatus INIT).setSocket (net.socket i)).setStatus
          SOCKET_CREATED).setStatus CONNECT_SENT := by
  obtain ⟨h1, h2, h3⟩ := h
  have h1' : ¬ (ITEM_TYPE_ZABBIX ≠ (s.start.setStatus INIT).item.type) := fun e => e h1.symm
  have h2' : (s.start.setStatus INIT).item.tls_connect = ZBX_TCP_SEC_UNENCRYPTED
      ∨ (tls = true ∧ ((s.start.setStatus INIT).item.tls_connect = ZBX_TCP_SEC_TLS_CERT
          ∨ (s.start.setStatus INIT).item.tls_connect = ZBX_TCP_SEC_TLS_PSK)) := h2
  have h3' : ¬ (((s.start.setStatus INIT).setSocket (net.socket i)).socket
      = ZBX_SOCKET_ERROR) := h3
  unfold setupTarget setupBody
  simp only
  rw [if_neg h1', if_pos h2', if_neg h3']
  unfold handle_socket_operation
  rw [if_pos (setStatus_conn_status _ _)]
  split_ifs <;> rfl

theorem setupTarget_of_not_created (tls : Bool) (program : String) (net : Net) (i : Nat)
    (s : Slot) (h1 : s.item.type = ITEM_TYPE_ZABBIX) (h : ¬ socketCreated tls net i s) :
    (setupTarget tls program net i s).conn_status = SKIPPED ∧
    (setupTarget tls program net i s).errcode = CONFIG_ERROR ∧
    lastErrWrite (setupTarget tls program net i s) = some CONFIG_ERROR ∧
    (setupTarget tls program net i s).result.msg ≠ none ∧
    closes (setupTarget tls program net i s) = [] := by
  have h1' : ¬ (ITEM_TYPE_ZABBIX ≠ (s.start.setStatus INIT).item.type) := fun e => e h1.symm
  unfold setupTarget setupBody
  simp only
  rw [if_neg h1']
  by_cases h2 : (s.start.setStatus INIT).item.tls_connect = ZBX_TCP_SEC_UNENCRYPTED
      ∨ (tls = true ∧ ((s.start.setStatus INIT).item.tls_connect = ZBX_TCP_SEC_TLS_CERT
          ∨ (s.start.setStatus INIT).item.tls_connect = ZBX_TCP_SEC_TLS_PSK))
  · have h3 : ((s.start.setStatus INIT).setSocket (net.socket i)).socket = ZBX_SOCKET_ERROR := by
      by_contra h3
      exact h ⟨h1, h2, h3⟩
    rw [if_pos h2, if_pos h3]
    simp [SET_MSG_RESULT, closes, Slot.start]
  · rw [if_neg h2]
    split_ifs <;> simp [SET_MSG_RESULT, closes, Slot.start]

theorem setupTarget_item (tls : Bool) (program : String) (net : Net) (i : Nat) (s : Slot) :
    (setupTarget tls program net i s).item = s.item := by
  by_cases h1 : s.item.type = ITEM_TYPE_ZABBIX
  · by_cases h : socketCreated tls net i s
    · rw [setupTarget_of_created tls program net i s h]
      split_ifs <;> simp [Slot.start]
    · have h1' : ¬ (ITEM_TYPE_ZABBIX ≠ (s.start.setStatus INIT).item.type) :=
        fun e => e h1.symm
      unfold setupTarget setupBody
      simp only
      rw [if_neg h1']
      split_ifs
      · simp [Slot.start]
      · exact absurd ⟨h1, by assumption, by assumption⟩ h
      · simp [Slot.start]
      · simp [Slot.start]
  · rw [setupTarget_of_ineligible tls program net i s h1]
    simp [Slot.start]

theorem runTarget_item (tls : Bool) (program : String) (net : Net) (n i : Nat) (s : Slot) :
    (runTarget tls program net n i s).item = s.item := by
  rw [runTarget, finalTarget_item, ticksTarget_item, setupTarget_item]

theorem setupTarget_settled (tls : Bool) (program : String) (net : Net) (i : Nat) (s : Slot)
    (h : s.item.type = ITEM_TYPE_ZABBIX) : Settled (setupTarget tls program net i s) := by
  by_cases hc : socketCreated tls net i s
  · rw [setupTarget_of_created tls program net i s hc]
    unfold Settled
    split_ifs <;> simp [outcomeCodes]
  · obtain ⟨c1, c2, c3, -, -⟩ := setupTarget_of_not_created tls program net i s h hc
    right; right
    rw [c1, c2, c3]
    simp [outcomeCodes]

theorem runTarget_settled (tls : Bool) (program : String) (net : Net) (n i : Nat) (s : Slot)
    (h : s.item.type = ITEM_TYPE_ZABBIX) :
    (runTarget tls program net n i s).errcode ∈ outcomeCodes ∧
      lastErrWrite (runTarget tls program net n i s)
        = some (runTarget tls program net n i s).errcode :=
  finalTarget_settled _ (ticksTarget_settled net i 0 n _ (setupTarget_settled tls program net i s h))

theorem runTarget_of_ineligible (tls : Bool) (program : String) (net : Net) (n i : Nat)
    (s : Slot) (h : s.item.type ≠ ITEM_TYPE_ZABBIX) :
    runTarget tls program net n i s = (s.start.setStatus INIT).setStatus SKIPPED := by
  have hk : ∀ k m, ticksTarget net i k m ((s.start.setStatus INIT).setStatus SKIPPED)
      = (s.start.setStatus INIT).setStatus SKIPPED := by
    intro k m
    induction m generalizing k with
    | zero => rfl
    | succ m ih =>
      rw [ticksTarget, tickTarget_of_terminal net k i _ (Or.inl rfl), ih]
  rw [runTarget, setupTarget_of_ineligible tls program net i s h, hk, finalTarget_eq]
  have hn : ¬ (REQ_SENT = ((s.start.setStatus INIT).setStatus SKIPPED).conn_status
      ∨ CONNECT_SENT = ((s.start.setStatus INIT).setStatus SKIPPED).conn_status) := by
    simp only [setStatus_conn_status]
    decide
  have hs : ¬ (((s.start.setStatus INIT).setStatus SKIPPED).socket ≠ 0) := by
    simp [Slot.start]
  rw [if_neg hn, if_neg hs]

/-! ## Status codes on return (C4, C5) -/

/-- C4, counterexample: in a batch with an agent item and an item of another
type, both with incoming `errcodes` entry 42, the call returns with
`errcodes[1]` still 42 and without having written to it. -/
theorem ineligible_errcode_not_written :
    (get_value_agent_async false "server" netAnswer 5 slotsMixed).map
        (fun b => b.targets.map (fun t => (t.errcode, lastErrWrite t)))
      = some [(SUCCEED, some SUCCEED), (42, none)] := by
  decide

/-- C4, amended: when `get_value_agent_async` returns, every index of an eligible
(agent-type) request has had a status code written to `errcodes[i]` by the call,
and `errcodes[i]` holds the last value written; the index of a request that is
not eligible is not written and keeps its incoming value.  The call returns once
the budget has elapsed, and the arrays keep their length. -/
theorem eligible_errcode_written (tls : Bool) (program : String) (net : Net)
    (slots : List Slot) (i : Nat) (s : Slot) (hs : slots[i]? = some s) :
    (∀ K, budgetElapsed net K →
      ∃ b, get_value_agent_async tls program net (K + 1) slots = some b) ∧
    (∀ fuel b, get_value_agent_async tls program net fuel slots = some b →
      b.targets.length = slots.length ∧
      ∃ t, b.targets[i]? = some t ∧ t.item = s.item ∧
        (s.item.type = ITEM_TYPE_ZABBIX → lastErrWrite t = some t.errcode) ∧
        (s.item.type ≠ ITEM_TYPE_ZABBIX → lastErrWrite t = none ∧ t.errcode = s.errcode)) := by
  refine ⟨fun K hK => async_returns tls program net slots K hK, ?_⟩
  intro fuel b hb
  obtain ⟨n, -, hn⟩ := async_getElem? tls program net fuel slots b hb
  have hlen : b.targets.length = slots.length := by
    obtain ⟨m, -, -, hfin, -, -⟩ := async_some tls program net fuel slots b hb
    have hm : ∀ m, (afterTicks tls program net slots m).targets.length = slots.length := by
      intro m
      induction m with
      | zero => simp [afterTicks, setup, forLoop_length]
      | succ m ih => simpa [afterTicks, tick, forLoop_length] using ih
    rw [hfin]
    simpa [finish, forLoop_length] using hm m
  refine ⟨hlen, runTarget tls program net n i s, ?_, runTarget_item _ _ _ _ _ _, ?_, ?_⟩
  · rw [hn i, hs]; rfl
  · intro he
    exact (runTarget_settled tls program net n i s he).2
  · intro he
    rw [runTarget_of_ineligible tls program net n i s he]
    simp [lastErrWrite, Slot.start]

/-- Witness of C4 (amended): the mixed batch returns, with `errcodes[0]` written. -/
theorem eligible_errcode_written_witness :
    ∃ b, get_value_agent_async false "server" netAnswer 5 slotsMixed = some b ∧
      ∃ t, b.targets[0]? = some t ∧ lastErrWrite t = some t.errcode :=
  have h := eligible_errcode_written false "server" netAnswer slotsMixed 0
    { item := item0, result := result0, errcode := 42 } rfl
  (h.1 4 (by decide)).elim fun b hb =>
    ⟨b, hb, (h.2 5 b hb).2.elim fun t ht => ⟨t, ht.1, ht.2.2.1 rfl⟩⟩

/-- C5: for every batch and every eligible (agent-type) request `i`, whatever the
network reports, `errcodes[i]` is one of SUCCEED, NOTSUPPORTED, AGENT_ERROR,
NETWORK_ERROR, CONFIG_ERROR, TIMEOUT_ERROR when `get_value_agent_async` returns;
and the call returns once the budget has elapsed. -/
theorem eligible_errcode_in_codes (tls : Bool) (program : String) (net : Net)
    (slots : List Slot) (i : Nat) (s : Slot) (hs : slots[i]? = some s)
    (he : s.item.type = ITEM_TYPE_ZABBIX) :
    (∀ K, budgetElapsed net K →
      ∃ b, get_value_agent_async tls program net (K + 1) slots = some b) ∧
    (∀ fuel b, get_value_agent_async tls program net fuel slots = some b →
      ∃ t, b.targets[i]? = some t ∧ t.item = s.item ∧
        (t.errcode = SUCCEED ∨ t.errcode = NOTSUPPORTED ∨ t.errcode = AGENT_ERROR ∨
          t.errcode = NETWORK_ERROR ∨ t.errcode = CONFIG_ERROR ∨ t.errcode = TIMEOUT_ERROR)) := by
  refine ⟨fun K hK => async_returns tls program net slots K hK, ?_⟩
  intro fuel b hb
  obtain ⟨n, -, hn⟩ := async_getElem? tls program net fuel slots b hb
  refine ⟨runTarget tls program net n i s, ?_, runTarget_item _ _ _ _ _ _, ?_⟩
  · rw [hn i, hs]; rfl
  · have := (runTarget_settled tls program net n i s he).1
    simpa [outcomeCodes] using this

/-- Witness of C5: in the mixed batch the agent item ends with SUCCEED. -/
theorem eligible_errcode_in_codes_witness :
    ∃ b, get_value_agent_async false "server" netAnswer 5 slotsMixed = some b ∧
      ∃ t, b.targets[0]? = some t ∧
        (t.errcode = SUCCEED ∨ t.errcode = NOTSUPPORTED ∨ t.errcode = AGENT_ERROR ∨
          t.errcode = NETWORK_ERROR ∨ t.errcode = CONFIG_ERROR ∨ t.errcode = TIMEOUT_ERROR) :=
  have h := eligible_errcode_in_codes false "server" netAnswer slotsMixed 0
    { item := item0, result := result0, errcode := 42 } rfl rfl
  (h.1 4 (by decide)).elim fun b hb =>
    ⟨b, hb, (h.2 5 b hb).elim fun t ht => ⟨t, ht.1, ht.2.2⟩⟩

/-! ## Sockets and the deadline (C6, C7) -/

theorem setupTarget_sockInv (tls : Bool) (program : String) (net : Net) (i : Nat) (s : Slot)
    (h : socketCreated tls net i s) :
    SockInv (net.socket i) (setupTarget tls program net i s) := by
  rw [setupTarget_of_created tls program net i s h]
  unfold SockInv
  split_ifs <;> simp [closes, Slot.start]

theorem tickTarget_sockInv (net : Net) (k i : Nat) (fd : Int) (t : Target)
    (h : SockInv fd t) : SockInv fd (tickTarget net k i t) := by
  by_cases h0 : t.conn_status = SKIPPED ∨ t.conn_status = FAIL ∨ t.conn_status = CLOSED
  · rw [tickTarget_of_terminal net k i t h0]; exact h
  have hfail : t.conn_status ≠ FAIL := fun e => h0 (Or.inr (Or.inl e))
  rcases h with ⟨hst, hsock, hcl⟩ | ⟨hst, -, -⟩
  · rcases hst with hst | hst | hst
    · rw [tickTarget_of_connect_sent net k i t hst]
      unfold SockInv
      split_ifs <;> simp [hst, hsock, hcl]
    · rw [tickTarget_of_req_sent net k i t hst]
      obtain ⟨-, r2, -, r4, -, -⟩ := recv_and_classify_fields (net.recv i k) (net.strerror i k) t
      unfold SockInv
      split_ifs
      · simp [hst, hsock, hcl]
      · right
        simp [r2, r4, hsock, hcl]
    · exact absurd hst hfail
  · exact absurd hst hfail

theorem ticksTarget_sockInv (net : Net) (i k n : Nat) (fd : Int) (t : Target)
    (h : SockInv fd t) : SockInv fd (ticksTarget net i k n t) := by
  induction n generalizing k t with
  | zero => exact h
  | succ n ih => rw [ticksTarget]; exact ih _ _ (tickTarget_sockInv net k i fd t h)

theorem ticksTarget_skipped (net : Net) (i k n : Nat) (t : Target)
    (h : t.conn_status = SKIPPED) : ticksTarget net i k n t = t := by
  induction n generalizing k with
  | zero => rfl
  | succ n ih => rw [ticksTarget, tickTarget_of_terminal net k i t (Or.inl h), ih]

theorem setupTarget_skipped_or_created (tls : Bool) (program : String) (net : Net) (i : Nat)
    (s : Slot) :
    (setupTarget tls program net i s).conn_status = SKIPPED ∨ socketCreated tls net i s := by
  by_cases h1 : s.item.type = ITEM_TYPE_ZABBIX
  · by_cases hc : socketCreated tls net i s
    · exact Or.inr hc
    · exact Or.inl (setupTarget_of_not_created tls program net i s h1 hc).1
  · left
    rw [setupTarget_of_ineligible tls program net i s h1]
    rfl

theorem finalTarget_of_nonterminal (t : Target)
    (h : t.conn_status = CONNECT_SENT ∨ t.conn_status = REQ_SENT) :
    (finalTarget t).errcode = TIMEOUT_ERROR ∧
    (finalTarget t).result.msg = some MSG_TIMED_OUT ∧
    (finalTarget t).conn_status = t.conn_status ∧
    (t.socket ≠ 0 → closes (finalTarget t) = closes t ++ [t.socket]) ∧
    (t.socket = 0 → closes (finalTarget t) = closes t) := by
  have hc : REQ_SENT = t.conn_status ∨ CONNECT_SENT = t.conn_status := by
    rcases h with h | h
    · exact Or.inr h.symm
    · exact Or.inl h.symm
  rw [finalTarget_eq, if_pos hc]
  by_cases hs : t.socket = 0
  · simp [hs, SET_MSG_RESULT]
  · simp [hs, SET_MSG_RESULT]

theorem finalTarget_closes_of_sockInv (fd : Int) (t : Target) (h : SockInv fd t)
    (hfd : fd ≠ 0) : closes (finalTarget t) = [fd] := by
  rw [finalTarget_eq]
  rcases h with ⟨-, hsock, hcl⟩ | ⟨hst, hsock, hcl⟩
  · have hs : t.socket ≠ 0 := by rw [hsock]; exact hfd
    split_ifs <;> simp [hcl, hsock]
  · have hn : ¬ (REQ_SENT = t.conn_status ∨ CONNECT_SENT = t.conn_status) := by
      rw [hst]; decide
    have hs : ¬ (t.socket ≠ 0) := by simp [hsock]
    rw [if_neg hn, if_neg hs, hcl]
theorem pollLoop_afterTicks (tls : Bool) (program : String) (net : Net) (slots : List Slot)
    (fuel : Nat) (b0 : Batch)
    (h : pollLoop net fuel 0 (setup tls program net slots) = some b0) :
    ∃ n, b0 = afterTicks tls program net slots n := by
  obtain ⟨n, -, -, hf, -⟩ := pollLoop_some net fuel 0 _ _ h
  exact ⟨n, (hf (afterTicks tls program net slots) rfl (by intro m; simp [afterTicks])).symm⟩

theorem ticksTarget_pending (net : Net) (i k n : Nat) (t : Target)
    (hst : t.conn_status = CONNECT_SENT) (h : ∀ k, net.getsockopt_ret i k < 0) :
    ticksTarget net i k n t = t := by
  induction n generalizing k with
  | zero => rfl
  | succ n ih =>
    rw [ticksTarget, tickTarget_of_connect_sent net k i t hst, if_pos (h k), ih]

theorem tickTarget_unread (net : Net) (k i : Nat) (t : Target)
    (hst : t.conn_status = CONNECT_SENT ∨ t.conn_status = REQ_SENT)
    (h : net.fionread i k = 0) :
    (tickTarget net k i t).conn_status = CONNECT_SENT ∨
      (tickTarget net k i t).conn_status = REQ_SENT := by
  rcases hst with hst | hst
  · rw [tickTarget_of_connect_sent net k i t hst]
    split_ifs <;> simp [hst]
  · rw [tickTarget_of_req_sent net k i t hst, if_pos h]
    exact Or.inr hst

theorem ticksTarget_unread (net : Net) (i k n : Nat) (t : Target)
    (hst : t.conn_status = CONNECT_SENT ∨ t.conn_status = REQ_SENT)
    (h : ∀ k, net.fionread i k = 0) :
    (ticksTarget net i k n t).conn_status = CONNECT_SENT ∨
      (ticksTarget net i k n t).conn_status = REQ_SENT := by
  induction n generalizing k t with
  | zero => exact hst
  | succ n ih => rw [ticksTarget]; exact ih _ _ (tickTarget_unread net k i t hst (h k))

/-- C6, counterexample: when `socket()` returns descriptor 0 and the connect never
completes, the target is still in CONNECT_SENT when the polling loop ends and gets
TIMEOUT_ERROR, but `zbx_tcp_close` is never called on its socket. -/
theorem timed_out_socket_zero_left_open :
    (get_value_agent_async false "server" netFdZeroPending 5 slotsOne).map
        (fun b => b.targets.map (fun t => (t.conn_status, t.errcode, closes t)))
      = some [(CONNECT_SENT, TIMEOUT_ERROR, [])] := by
  decide

/-- C6, amended: every target that is still in CONNECT_SENT or REQ_SENT when the
polling loop exits ends with `errcodes[i] = TIMEOUT_ERROR` and the message
"Waiting for responce timed out", and its socket is closed (exactly one call of
`zbx_tcp_close`) when its descriptor is not 0; in particular a target that passed
the pre-flight step and whose connect never completes, or that never has
readable data, ends with TIMEOUT_ERROR.  The call returns once the budget has
elapsed. -/
theorem nonterminal_gets_timeout (tls : Bool) (program : String) (net : Net)
    (slots : List Slot) (i : Nat) (s : Slot) (hs : slots[i]? = some s) :
    (∀ K, budgetElapsed net K →
      ∃ b, get_value_agent_async tls program net (K + 1) slots = some b) ∧
    (∀ fuel b0 t, pollLoop net fuel 0 (setup tls program net slots) = some b0 →
      b0.targets[i]? = some t →
      (t.conn_status = CONNECT_SENT ∨ t.conn_status = REQ_SENT) →
      get_value_agent_async tls program net fuel slots = some (finish b0) ∧
      ∃ t', (finish b0).targets[i]? = some t' ∧ t'.errcode = TIMEOUT_ERROR ∧
        t'.result.msg = some MSG_TIMED_OUT ∧
        (net.socket i ≠ 0 → closes t' = [net.socket i])) ∧
    (socketCreated tls net i s → net.gethostbyname i = true →
      ¬ (net.connect i = ZBX_PROTO_ERROR ∧ net.einprogress i = false) →
      ((∀ k, net.getsockopt_ret i k < 0) ∨ (∀ k, net.fionread i k = 0)) →
      ∀ fuel b, get_value_agent_async tls program net fuel slots = some b →
        ∃ t, b.targets[i]? = some t ∧ t.errcode = TIMEOUT_ERROR ∧
          t.result.msg = some MSG_TIMED_OUT) := by
  refine ⟨fun K hK => async_returns tls program net slots K hK, ?_, ?_⟩
  · intro fuel b0 t hloop ht hnt
    refine ⟨by simp [get_value_agent_async, hloop], finalTarget t, ?_, ?_⟩
    · rw [finish_getElem?, ht]; rfl
    obtain ⟨n, hn⟩ := pollLoop_afterTicks tls program net slots fuel b0 hloop
    have ht' := ht
    rw [hn, afterTicks_getElem?, hs] at ht'
    simp only [Option.map_some', Option.some.injEq] at ht'
    obtain ⟨f1, f2, -, f4, -⟩ := finalTarget_of_nonterminal t hnt
    refine ⟨f1, f2, fun hfd => ?_⟩
    rcases setupTarget_skipped_or_created tls program net i s with hsk | hc
    · rw [ticksTarget_skipped net i 0 n _ hsk] at ht'
      rw [← ht', hsk] at hnt
      exact absurd hnt (by decide)
    · have hinv := ticksTarget_sockInv net i 0 n _ _ (setupTarget_sockInv tls program net i s hc)
      rw [ht'] at hinv
      exact finalTarget_closes_of_sockInv _ t hinv hfd
  · intro hc hp hconn hquiet fuel b hb
    obtain ⟨n, -, hn⟩ := async_getElem? tls program net fuel slots b hb
    refine ⟨runTarget tls program net n i s, by rw [hn i, hs]; rfl, ?_⟩
    have h0 : (setupTarget tls program net i s).conn_status = CONNECT_SENT := by
      rw [setupTarget_of_created tls program net i s hc]
      have hp' : ¬ (net.gethostbyname i = false) := by simp [hp]
      rw [if_neg hp', if_neg hconn]
      rfl
    have hnt : (ticksTarget net i 0 n (setupTarget tls program net i s)).conn_status
          = CONNECT_SENT ∨
        (ticksTarget net i 0 n (setupTarget tls program net i s)).conn_status = REQ_SENT := by
      rcases hquiet with hq | hq
      · rw [ticksTarget_pending net i 0 n _ h0 hq]; exact Or.inl h0
      · exact ticksTarget_unread net i 0 n _ (Or.inl h0) hq
    obtain ⟨f1, f2, -⟩ := finalTarget_of_nonterminal _ hnt
    exact ⟨f1, f2⟩

/-- Witness of C6 (amended): a target whose connect never completes ends with
TIMEOUT_ERROR and its socket (descriptor 5) closed. -/
theorem nonterminal_gets_timeout_witness :
    ∃ b, get_value_agent_async false "server" netPending 5 slotsOne = some b ∧
      ∃ t, b.targets[0]? = some t ∧ t.errcode = TIMEOUT_ERROR ∧
        t.result.msg = some MSG_TIMED_OUT :=
  have h := nonterminal_gets_timeout false "server" netPending slotsOne 0
    { item := item0, result := result0, errcode := 42 } rfl
  (h.1 4 (by decide)).elim fun b hb =>
    ⟨b, hb, h.2.2 ⟨rfl, Or.inl rfl, by decide⟩ rfl (by decide) (Or.inl (fun _ => (by decide : (-1 : Int) < 0))) 5 b hb⟩

/-- C7, counterexample: when `socket()` returns descriptor 0 and the name
resolution of the pre-flight step fails, the socket has been created but
`zbx_tcp_close` is never called on it. -/
theorem created_socket_zero_left_open :
    (get_value_agent_async false "server" netFdZeroNoHost 5 slotsOne).map
        (fun b => b.targets.map (fun t => (t.conn_status, t.socket, closes t)))
      = some [(FAIL, 0, [])] ∧ netFdZeroNoHost.socket 0 ≠ ZBX_SOCKET_ERROR := by
  decide

/-- C7, amended: every socket that `get_value_agent_async` creates with a
descriptor other than 0 has been closed, by exactly one call of `zbx_tcp_close`,
when the call returns, whatever path the target takes (receive, pre-flight or
connect failure, send failure, deadline expiry).  The call returns once the
budget has elapsed. -/
theorem created_socket_closed (tls : Bool) (program : String) (net : Net)
    (slots : List Slot) (i : Nat) (s : Slot) (hs : slots[i]? = some s)
    (hc : socketCreated tls net i s) (hfd : net.socket i ≠ 0) :
    (∀ K, budgetElapsed net K →
      ∃ b, get_value_agent_async tls program net (K + 1) slots = some b) ∧
    (∀ fuel b, get_value_agent_async tls program net fuel slots = some b →
      ∃ t, b.targets[i]? = some t ∧ closes t = [net.socket i]) := by
  refine ⟨fun K hK => async_returns tls program net slots K hK, ?_⟩
  intro fuel b hb
  obtain ⟨n, -, hn⟩ := async_getElem? tls program net fuel slots b hb
  refine ⟨runTarget tls program net n i s, by rw [hn i, hs]; rfl, ?_⟩
  exact finalTarget_closes_of_sockInv _ _
    (ticksTarget_sockInv net i 0 n _ _ (setupTarget_sockInv tls program net i s hc)) hfd

/-- Witness of C7 (amended): the socket (descriptor 5) of an answered request is
closed when the call returns. -/
theorem created_socket_closed_witness :
    ∃ b, get_value_agent_async false "server" netAnswer 5 slotsOne = some b ∧
      ∃ t, b.targets[0]? = some t ∧ closes t = [5] :=
  have h := created_socket_closed false "server" netAnswer slotsOne 0
    { item := item0, result := result0, errcode := 42 } rfl
    ⟨rfl, Or.inl rfl, by decide⟩ (by decide)
  (h.1 4 (by decide)).elim fun b hb => ⟨b, hb, h.2 5 b hb⟩

/-! ## Failure paths of the state machine (C8, C9, C10) -/

/-- C8, the code at the failing input: the target whose pending socket error is
found non-zero in the first tick is left in CONNECT_SENT (line 405 compares
instead of assigning), is processed again in the next tick, where it moves to
REQ_SENT, and returns with TIMEOUT_ERROR instead of NETWORK_ERROR. -/
theorem connect_error_not_terminal :
    (afterTicks false "server" netRefused slotsOne 0).targets.map
        (fun t => (t.conn_status, t.errcode)) = [(CONNECT_SENT, 42)] ∧
    (afterTicks false "server" netRefused slotsOne 1).targets.map
        (fun t => (t.conn_status, t.errcode)) = [(CONNECT_SENT, NETWORK_ERROR)] ∧
    (afterTicks false "server" netRefused slotsOne 2).targets.map
        (fun t => (t.conn_status, t.errcode)) = [(REQ_SENT, NETWORK_ERROR)] ∧
    (get_value_agent_async false "server" netRefused 5 slotsOne).map
        (fun b => b.targets.map (fun t => (t.conn_status, t.errcode)))
      = some [(REQ_SENT, TIMEOUT_ERROR)] := by
  decide

/-- C9, the code at the failing input: when `zbx_tcp_send` fails, the state FAIL
written at line 217 is overwritten by REQ_SENT at line 222, so the target awaits a
response and returns with TIMEOUT_ERROR instead of NETWORK_ERROR. -/
theorem send_failure_enters_req_sent :
    (handle_socket_operation netSendFails 0 0 (target0 CONNECT_SENT) 1).1.conn_status
      = REQ_SENT ∧
    (handle_socket_operation netSendFails 0 0 (target0 CONNECT_SENT) 1).1.errcode
      = NETWORK_ERROR ∧
    (afterTicks false "server" netSendFails slotsOne 1).targets.map
        (fun t => (t.conn_status, t.errcode)) = [(REQ_SENT, NETWORK_ERROR)] ∧
    (get_value_agent_async false "server" netSendFails 5 slotsOne).map
        (fun b => b.targets.map (fun t => (t.conn_status, t.errcode)))
      = some [(REQ_SENT, TIMEOUT_ERROR)] := by
  decide

/-- C10, the code at the failing input: when `connect()` fails at once with an
error other than EINPROGRESS, the target becomes terminal (FAIL) with a message,
but its status code is CONFIG_ERROR, not NETWORK_ERROR. -/
theorem connect_failure_is_config_error :
    (setup false "server" netConnectFails slotsOne).targets.map
        (fun t => (t.conn_status, t.errcode, t.result.msg))
      = [(FAIL, CONFIG_ERROR, some MSG_NO_CONNECT)] ∧
    (get_value_agent_async false "server" netConnectFails 5 slotsOne).map
        (fun b => b.targets.map (fun t => (t.conn_status, t.errcode, t.result.msg)))
      = some [(FAIL, CONFIG_ERROR, some MSG_NO_CONNECT)] ∧
    CONFIG_ERROR ≠ NETWORK_ERROR := by
  decide

/-! ## The counter `active_agents` -/

theorem tickBody_snd (net : Net) (k i : Nat) (t : Target) (a : Nat) :
    (tickBody net k i t a).2 =
      if t.conn_status = REQ_SENT ∧ net.fionread i k ≠ 0 then (a + 2 ^ 32 - 1) % 2 ^ 32
      else a := by
  obtain ⟨c1, c2, c3, c4, c5, r1, r2, r3, r4, r5, -⟩ := status_distinct
  by_cases h0 : t.conn_status = SKIPPED ∨ t.conn_status = FAIL ∨ t.conn_status = CLOSED
  · have hn : ¬ (t.conn_status = REQ_SENT ∧ net.fionread i k ≠ 0) := by
      rintro ⟨h, -⟩
      rw [h] at h0
      simp [r1, r2, r3] at h0
    unfold tickBody
    rw [if_pos h0, if_neg hn]
  by_cases h1 : t.conn_status = CONNECT_SENT
  · have hn : ¬ (t.conn_status = REQ_SENT ∧ net.fionread i k ≠ 0) := by
      rintro ⟨h, -⟩
      rw [h1] at h
      exact c4 h
    unfold tickBody handle_socket_operation
    rw [if_neg hn]
    simp only [h1, c1, c2, c3, c5, or_self, if_false, if_true]
    split_ifs <;> rfl
  by_cases h2 : t.conn_status = REQ_SENT
  · unfold tickBody handle_socket_operation
    simp only [h2, r1, r2, r3, r4, r5, or_self, if_false, if_true, true_and]
    split_ifs <;> simp_all
  · have hn : ¬ (t.conn_status = REQ_SENT ∧ net.fionread i k ≠ 0) := fun h => h2 h.1
    unfold tickBody
    rw [if_neg h0, if_neg h1, if_neg h2, if_neg hn]

theorem setupBody_snd (tls : Bool) (program : String) (net : Net) (i : Nat) (t : Target)
    (a : Nat) :
    (setupBody tls program net i t a).2 =
      if t.item.type = ITEM_TYPE_ZABBIX ∧ tlsAdmitted tls t.item
          ∧ net.socket i ≠ ZBX_SOCKET_ERROR then (a + 1) % 2 ^ 32
      else a := by
  unfold setupBody
  simp only [setStatus_item, setSocket_socket]
  by_cases h1 : ITEM_TYPE_ZABBIX ≠ t.item.type
  · have hn : ¬ (t.item.type = ITEM_TYPE_ZABBIX ∧ tlsAdmitted tls t.item
        ∧ net.socket i ≠ ZBX_SOCKET_ERROR) := fun h => h1 h.1.symm
    rw [if_pos h1, if_neg hn]
  · have h1' : t.item.type = ITEM_TYPE_ZABBIX := by
      by_contra h; exact h1 (fun e => h e.symm)
    rw [if_neg h1]
    by_cases h2 : tlsAdmitted tls t.item
    · rw [if_pos (show t.item.tls_connect = ZBX_TCP_SEC_UNENCRYPTED
          ∨ (tls = true ∧ (t.item.tls_connect = ZBX_TCP_SEC_TLS_CERT
            ∨ t.item.tls_connect = ZBX_TCP_SEC_TLS_PSK)) from h2)]
      by_cases h3 : net.socket i = ZBX_SOCKET_ERROR
      · have hn : ¬ (t.item.type = ITEM_TYPE_ZABBIX ∧ tlsAdmitted tls t.item
            ∧ net.socket i ≠ ZBX_SOCKET_ERROR) := fun h => h.2.2 h3
        rw [if_pos h3, if_neg hn]
      · rw [if_neg h3, if_pos ⟨h1', h2, h3⟩]
        unfold handle_socket_operation
        rw [if_pos (setStatus_conn_status _ _)]
        split_ifs <;> rfl
    · have hn : ¬ (t.item.type = ITEM_TYPE_ZABBIX ∧ tlsAdmitted tls t.item
          ∧ net.socket i ≠ ZBX_SOCKET_ERROR) := fun h => h2 h.2.1
      rw [if_neg (show ¬ (t.item.tls_connect = ZBX_TCP_SEC_UNENCRYPTED
          ∨ (tls = true ∧ (t.item.tls_connect = ZBX_TCP_SEC_TLS_CERT
            ∨ t.item.tls_connect = ZBX_TCP_SEC_TLS_PSK))) from h2), if_neg hn]
      split_ifs <;> rfl

theorem forLoop_count (body : Nat → Target → Nat → Target × Nat) (P : Target → Prop)
    (hbody : ∀ i t a, P t → (counted t = true → 1 ≤ a) →
      a + (if counted t then 0 else 1) < 2 ^ 32 →
      (body i t a).2 + (if counted t then 1 else 0)
        = a + (if counted (body i t a).1 then 1 else 0))
    (i : Nat) (ts : List Target) (a extra : Nat) (hP : ∀ t ∈ ts, P t)
    (ha : a = extra + ts.countP counted) (hlen : extra + ts.length < 2 ^ 32) :
    (forLoop body i ts a).2 = extra + (forLoop body i ts a).1.countP counted := by
  induction ts generalizing i a extra with
  | nil => simpa [forLoop] using ha
  | cons t ts ih =>
    have hle : ts.countP counted ≤ ts.length := List.countP_le_length _
    rw [List.countP_cons] at ha
    rw [List.length_cons] at hlen
    have h1 := hbody i t a (hP t (by simp))
      (by intro hc; rw [ha]; simp only [hc, if_true]; omega)
      (by by_cases hc : counted t = true <;> simp [hc] at ha ⊢ <;> omega)
    have hc' : (if counted (body i t a).1 = true then 1 else 0) ≤ 1 := by split_ifs <;> omega
    have h2 := ih (i + 1) (body i t a).2 (extra + (if counted (body i t a).1 then 1 else 0))
      (fun t' ht' => hP t' (by simp [ht']))
      (by by_cases hc : counted t = true <;> simp [hc] at ha h1 <;> omega)
      (by omega)
    simp only [forLoop, List.countP_cons]
    rw [h2]
    omega
theorem counted_of_nonTerminal (t : Target) (h : nonTerminal t = true) : counted t = true := by
  simp only [nonTerminal, decide_eq_true_eq] at h
  simp only [counted, decide_eq_true_eq]
  rcases h with h | h
  · exact Or.inl h
  · exact Or.inr (Or.inl h)

theorem tickTarget_of_idle (net : Net) (k i : Nat) (t : Target)
    (h : ¬ (t.conn_status = CONNECT_SENT ∨ t.conn_status = REQ_SENT)) :
    tickTarget net k i t = t := by
  by_cases h0 : t.conn_status = SKIPPED ∨ t.conn_status = FAIL ∨ t.conn_status = CLOSED
  · exact tickTarget_of_terminal net k i t h0
  · unfold tickTarget tickBody
    rw [if_neg h0, if_neg (fun e => h (Or.inl e)), if_neg (fun e => h (Or.inr e))]

theorem tickBody_count (net : Net) (k i : Nat) (t : Target) (a : Nat)
    (h1 : counted t = true → 1 ≤ a) (h2 : a + (if counted t then 0 else 1) < 2 ^ 32) :
    (tickBody net k i t a).2 + (if counted t then 1 else 0)
      = a + (if counted (tickBody net k i t a).1 then 1 else 0) := by
  obtain ⟨c1, c2, c3, c4, c5, r1, r2, r3, r4, r5, -⟩ := status_distinct
  have hfst : (tickBody net k i t a).1 = tickTarget net k i t := tickBody_fst_indep net k i t a 0
  rw [tickBody_snd, hfst]
  by_cases hr : t.conn_status = REQ_SENT
  · have hc : counted t = true := by simp [counted, hr]
    by_cases hf : net.fionread i k = 0
    · have hn : ¬ (t.conn_status = REQ_SENT ∧ net.fionread i k ≠ 0) := fun h => h.2 hf
      rw [if_neg hn, tickTarget_of_req_sent net k i t hr, if_pos hf]
    · rw [if_pos ⟨hr, hf⟩, tickTarget_of_req_sent net k i t hr, if_neg hf]
      have hc' : counted ((((recv_and_classify (net.recv i k) (net.strerror i k) t).tcpClose).setSocket
          0).setStatus FAIL) = false := by
        simp [counted, r2.symm, c2.symm]
      have ha := h1 hc
      simp only [hc, if_true] at h2
      rw [hc, hc']
      simp only [if_true, Bool.false_eq_true, if_false]
      omega
  · have hn : ¬ (t.conn_status = REQ_SENT ∧ net.fionread i k ≠ 0) := fun h => hr h.1
    rw [if_neg hn]
    by_cases hcs : t.conn_status = CONNECT_SENT
    · have hc : counted t = true := by simp [counted, hcs]
      have hc' : counted (tickTarget net k i t) = true := by
        rw [tickTarget_of_connect_sent net k i t hcs]
        split_ifs <;> simp [counted, hcs]
      rw [hc, hc']
    · rw [tickTarget_of_idle net k i t (fun h => h.elim hcs hr)]

theorem counted_start (s : Slot) : counted s.start = false := by
  simp [counted, Slot.start, CONNECT_SENT, REQ_SENT, FAIL]

theorem setupTarget_counted (tls : Bool) (program : String) (net : Net) (i : Nat) (s : Slot) :
    counted (setupTarget tls program net i s) = true ↔ socketCreated tls net i s := by
  obtain ⟨-, -, -, -, -, -, -, -, -, -, -, -, -, -, -, s1, s2, s3⟩ := status_distinct
  by_cases hc : socketCreated tls net i s
  · rw [setupTarget_of_created tls program net i s hc]
    simp only [hc, iff_true]
    split_ifs <;> simp [counted, closes, Slot.start]
  · have hsk : (setupTarget tls program net i s).conn_status = SKIPPED := by
      rcases setupTarget_skipped_or_created tls program net i s with h | h
      · exact h
      · exact absurd h hc
    simp [counted, hsk, hc, s1, s2, s3]

theorem setupBody_count (tls : Bool) (program : String) (net : Net) (i : Nat) (t : Target)
    (a : Nat) (hP : ∃ s : Slot, t = s.start) (h2 : a + (if counted t then 0 else 1) < 2 ^ 32) :
    (setupBody tls program net i t a).2 + (if counted t then 1 else 0)
      = a + (if counted (setupBody tls program net i t a).1 then 1 else 0) := by
  obtain ⟨s, rfl⟩ := hP
  have hfst : (setupBody tls program net i s.start a).1 = setupTarget tls program net i s :=
    setupBody_fst_indep tls program net i s.start a 0
  rw [setupBody_snd, hfst]
  rw [counted_start] at h2 ⊢
  simp only [Bool.false_eq_true, if_false] at h2 ⊢
  by_cases hc : socketCreated tls net i s
  · have hc' : s.start.item.type = ITEM_TYPE_ZABBIX ∧ tlsAdmitted tls s.start.item
        ∧ net.socket i ≠ ZBX_SOCKET_ERROR := hc
    rw [if_pos hc', if_pos ((setupTarget_counted tls program net i s).mpr hc)]
    omega
  · have hc' : ¬ (s.start.item.type = ITEM_TYPE_ZABBIX ∧ tlsAdmitted tls s.start.item
        ∧ net.socket i ≠ ZBX_SOCKET_ERROR) := hc
    rw [if_neg hc', if_neg (fun h => hc ((setupTarget_counted tls program net i s).mp h))]

theorem setup_length (tls : Bool) (program : String) (net : Net) (slots : List Slot) :
    (setup tls program net slots).targets.length = slots.length := by
  simp [setup, forLoop_length]

theorem afterTicks_length (tls : Bool) (program : String) (net : Net) (slots : List Slot)
    (n : Nat) : (afterTicks tls program net slots n).targets.length = slots.length := by
  induction n with
  | zero => exact setup_length tls program net slots
  | succ n ih => simpa [afterTicks, tick, forLoop_length] using ih

theorem setup_active (tls : Bool) (program : String) (net : Net) (slots : List Slot)
    (hlen : slots.length < 2 ^ 32) :
    (setup tls program net slots).active_agents
      = (setup tls program net slots).targets.countP counted := by
  have h := forLoop_count (setupBody tls program net) (fun t => ∃ s : Slot, t = s.start)
    (fun i t a hP _ h2 => setupBody_count tls program net i t a hP h2)
    0 (slots.map Slot.start) 0 0
    (by intro t ht; simp only [List.mem_map] at ht; obtain ⟨s, -, rfl⟩ := ht; exact ⟨s, rfl⟩)
    (by
      have : (slots.map Slot.start).countP counted = 0 := by
        rw [List.countP_eq_zero]
        intro t ht
        simp only [List.mem_map] at ht
        obtain ⟨s, -, rfl⟩ := ht
        simp [counted_start]
      omega)
    (by simpa using hlen)
  simpa [setup] using h

theorem tick_active (net : Net) (k : Nat) (b : Batch) (hlen : b.targets.length < 2 ^ 32)
    (h : b.active_agents = b.targets.countP counted) :
    (tick net k b).active_agents = (tick net k b).targets.countP counted := by
  have h' := forLoop_count (tickBody net k) (fun _ => True)
    (fun i t a _ h1 h2 => tickBody_count net k i t a h1 h2)
    0 b.targets b.active_agents 0 (fun _ _ => trivial) (by omega) (by omega)
  simpa [tick] using h'

theorem afterTicks_active (tls : Bool) (program : String) (net : Net) (slots : List Slot)
    (hlen : slots.length < 2 ^ 32) (n : Nat) :
    (afterTicks tls program net slots n).active_agents
      = (afterTicks tls program net slots n).targets.countP counted := by
  induction n with
  | zero => exact setup_active tls program net slots hlen
  | succ n ih =>
    rw [afterTicks]
    exact tick_active net n _ (by rw [afterTicks_length]; exact hlen) ih

/-! ## Isolation of the targets (C12) -/

theorem ticksTarget_idle (net : Net) (i k n : Nat) (t : Target)
    (h : ¬ (t.conn_status = CONNECT_SENT ∨ t.conn_status = REQ_SENT)) :
    ticksTarget net i k n t = t := by
  induction n generalizing k with
  | zero => rfl
  | succ n ih => rw [ticksTarget, tickTarget_of_idle net k i t h, ih]

theorem ticksTarget_add (net : Net) (i k n d : Nat) (t : Target) :
    ticksTarget net i k (n + d) t = ticksTarget net i (k + n) d (ticksTarget net i k n t) := by
  induction n generalizing k t with
  | zero => simp [ticksTarget]
  | succ n ih =>
    have e : n + 1 + d = (n + d) + 1 := by omega
    rw [e, ticksTarget, ih, ticksTarget]
    have e' : k + 1 + n = k + (n + 1) := by omega
    rw [e']

theorem idle_of_active_zero (tls : Bool) (program : String) (net : Net) (slots : List Slot)
    (hlen : slots.length < 2 ^ 32) (n i : Nat) (t : Target)
    (h0 : (afterTicks tls program net slots n).active_agents = 0)
    (ht : (afterTicks tls program net slots n).targets[i]? = some t) :
    ¬ (t.conn_status = CONNECT_SENT ∨ t.conn_status = REQ_SENT) := by
  intro hnt
  have hc : counted t = true := counted_of_nonTerminal t (by simpa [nonTerminal] using hnt)
  have hz := afterTicks_active tls program net slots hlen n
  rw [h0] at hz
  have := (List.countP_eq_zero.mp hz.symm) t (List.getElem?_mem ht)
  exact this hc

/-- C11, the code at the failing input: when name resolution fails for the only
target, no target is in CONNECT_SENT or REQ_SENT after the setup phase, yet
`active_agents` is 1, the loop condition holds and ticks are executed until the
budget has elapsed: the call has not returned after four evaluations of the
condition and returns at the fifth. -/
theorem all_failed_still_polls :
    (setup false "server" netNoHost slotsOne).targets.map nonTerminal = [false] ∧
    (setup false "server" netNoHost slotsOne).active_agents = 1 ∧
    loopCond netNoHost 0 (setup false "server" netNoHost slotsOne) ∧
    loopCond netNoHost 3 (afterTicks false "server" netNoHost slotsOne 3) ∧
    get_value_agent_async false "server" netNoHost 4 slotsOne = none ∧
    (get_value_agent_async false "server" netNoHost 5 slotsOne).isSome = true := by
  decide

/-- C14, the code at the failing input: in a build without TLS the
pre-shared-key item is SKIPPED with CONFIG_ERROR and a message, gets no socket
and is not counted, but the item whose name resolution fails, which also gets
CONFIG_ERROR and a message, is counted: `active_agents` is 1 after the setup
phase. -/
theorem name_resolution_failure_counted :
    (setup false "server" netNoHost slotsPskPlain).targets.map
        (fun t => (t.conn_status, t.errcode, t.socket, t.result.msg))
      = [(SKIPPED, CONFIG_ERROR, 0, some (MSG_NO_TLS "server")),
         (FAIL, CONFIG_ERROR, 5, some MSG_NO_HOSTNAME)] ∧
    (setup false "server" netNoHost (slotsPskPlain.take 1)).active_agents = 0 ∧
    (setup false "server" netNoHost slotsPskPlain).active_agents = 1 := by
  decide

/-- C18, the code at the failing input: when `connect()` fails at once,
`active_agents` is 1 after the setup phase and after every tick, while no target
is in CONNECT_SENT or REQ_SENT. -/
theorem active_count_exceeds_non_terminal :
    (afterTicks false "server" netConnectFails slotsOne 0).active_agents = 1 ∧
    (afterTicks false "server" netConnectFails slotsOne 0).targets.countP nonTerminal = 0 ∧
    (afterTicks false "server" netConnectFails slotsOne 1).active_agents = 1 ∧
    (afterTicks false "server" netConnectFails slotsOne 1).targets.countP nonTerminal = 0 ∧
    (afterTicks false "server" netConnectFails slotsOne 4).active_agents = 1 ∧
    (afterTicks false "server" netConnectFails slotsOne 4).targets.countP nonTerminal = 0 := by
  decide

/-! ## The sentinel with trimmed characters (C15) and the return values (C16) -/

/-- C15, the code at the failing inputs: for the response "ZBX_NOTSUPPORTED\r\n"
both copies of the classifier give NOTSUPPORTED with the empty message, and for
"  ZBX_NOTSUPPORTED" they give the message "D", not the generic message. -/
theorem trimmed_sentinel_message :
    get_value_agent false "server" (callOf (recvOf 18 (ZBX_NOTSUPPORTED ++ [CR, LF])))
        item0 result0 = (NOTSUPPORTED, { msg := some [], text := none }) ∧
    (handle_socket_operation (net0 (recvOf 18 (ZBX_NOTSUPPORTED ++ [CR, LF]))) 0 0
        (target0 REQ_SENT) 1).1.result.msg = some [] ∧
    get_value_agent false "server" (callOf (recvOf 18 (' ' :: ' ' :: ZBX_NOTSUPPORTED)))
        item0 result0 = (NOTSUPPORTED, { msg := some ['D'], text := none }) ∧
    (handle_socket_operation (net0 (recvOf 18 (' ' :: ' ' :: ZBX_NOTSUPPORTED))) 0 0
        (target0 REQ_SENT) 1).1.result.msg = some ['D'] ∧
    some ([] : List Char) ≠ some MSG_NOT_SUPPORTED ∧ some ['D'] ≠ some MSG_NOT_SUPPORTED := by
  decide

/-- C16, the code at the failing inputs: `get_value_agent` returns CONFIG_ERROR
for a pre-shared-key item in a build without TLS and TIMEOUT_ERROR when the
receive step fails after the alarm has timed out; neither is among SUCCEED,
NETWORK_ERROR, NOTSUPPORTED, AGENT_ERROR and FAIL. -/
theorem get_value_agent_other_codes :
    (get_value_agent false "server" (callOf (recvOf 1 ['1'])) itemPsk result0).1
      = CONFIG_ERROR ∧
    (get_value_agent false "server"
      { connect := 0, send := 0, recv := recvOf (-1) [], timed_out := 0, strerror := [] }
      item0 result0).1 = TIMEOUT_ERROR ∧
    CONFIG_ERROR ∉ [SUCCEED, NETWORK_ERROR, NOTSUPPORTED, AGENT_ERROR, FAIL] ∧
    TIMEOUT_ERROR ∉ [SUCCEED, NETWORK_ERROR, NOTSUPPORTED, AGENT_ERROR, FAIL] := by
  decide

/-! ## Reading the history (C17) -/

/-- C17, the code at the failing input: with one row of item 1 at clock 10 in
the storage, `clickhouse_get_values` for the interval `]0, 20]` returns SUCCEED
and leaves `values` empty, where the behaviour of its header comment appends the
row; the function returns the same for every storage and request. -/
theorem clickhouse_get_values_reads_nothing :
    clickhouse_get_values [{ itemid := 1, clock := 10, ns := 0, value := "5" }] 1 0 0 20 []
      = (SUCCEED, []) ∧
    get_values_documented [{ itemid := 1, clock := 10, ns := 0, value := "5" }] 1 0 0 20 []
      = [{ sec := 10, ns := 0, value := "5" }] ∧
    ∀ storage itemid start count end_ values,
      clickhouse_get_values storage itemid start count end_ values = (SUCCEED, values) := by
  refine ⟨rfl, by decide, fun _ _ _ _ _ _ => rfl⟩

/-! ## The socket handle at the tick boundaries (C20) -/

theorem setupTarget_handleInv (tls : Bool) (program : String) (net : Net) (i : Nat) (s : Slot) :
    HandleInv net i (setupTarget tls program net i s) := by
  by_cases hc : socketCreated tls net i s
  · exact Or.inr ⟨hc.2.2, setupTarget_sockInv tls program net i s hc⟩
  · left
    by_cases h1 : s.item.type = ITEM_TYPE_ZABBIX
    · have h1' : ¬ (ITEM_TYPE_ZABBIX ≠ (s.start.setStatus INIT).item.type) :=
        fun e => e h1.symm
      unfold setupTarget setupBody
      simp only
      rw [if_neg h1']
      split_ifs with h2 h3
      · simp [closes, Slot.start, h3]
        exact Or.inr h3
      · exact absurd ⟨h1, h2, h3⟩ hc
      · simp [closes, Slot.start]
      · simp [closes, Slot.start]
    · rw [setupTarget_of_ineligible tls program net i s h1]
      simp [closes, Slot.start]

theorem tickTarget_handleInv (net : Net) (k i : Nat) (t : Target) (h : HandleInv net i t) :
    HandleInv net i (tickTarget net k i t) := by
  rcases h with ⟨hsk, hrest⟩ | ⟨hfd, hinv⟩
  · rw [tickTarget_of_terminal net k i t (Or.inl hsk)]
    exact Or.inl ⟨hsk, hrest⟩
  · exact Or.inr ⟨hfd, tickTarget_sockInv net k i _ t hinv⟩

theorem ticksTarget_handleInv (net : Net) (i k n : Nat) (t : Target) (h : HandleInv net i t) :
    HandleInv net i (ticksTarget net i k n t) := by
  induction n generalizing k t with
  | zero => exact h
  | succ n ih => rw [ticksTarget]; exact ih _ _ (tickTarget_handleInv net k i t h)

/-- C20, counterexample: when name resolution fails, the target is terminal
(FAIL) after the setup phase and after every tick while its socket handle still
holds descriptor 5 and `zbx_tcp_close` has not been called. -/
theorem failed_target_keeps_handle :
    (afterTicks false "server" netNoHost slotsOne 0).targets.map
        (fun t => (t.conn_status, t.socket, closes t)) = [(FAIL, 5, [])] ∧
    (afterTicks false "server" netNoHost slotsOne 2).targets.map
        (fun t => (t.conn_status, t.socket, closes t)) = [(FAIL, 5, [])] := by
  decide

/-- C20, amended: at every tick boundary, a target in CONNECT_SENT or REQ_SENT
holds the descriptor created for it, not yet closed; a non-zero handle belongs to
such a target or to one that failed in the pre-flight step (FAIL with the
descriptor kept and not closed, or SKIPPED with the failure value of `socket()`);
and a target in REQ_SENT with readable data becomes FAIL in that tick with its
socket closed and its handle cleared. -/
theorem handle_at_tick_boundary (tls : Bool) (program : String) (net : Net)
    (slots : List Slot) (i m : Nat) (t : Target)
    (ht : (afterTicks tls program net slots m).targets[i]? = some t) :
    ((t.conn_status = CONNECT_SENT ∨ t.conn_status = REQ_SENT) →
      t.socket = net.socket i ∧ net.socket i ≠ ZBX_SOCKET_ERROR ∧ closes t = []) ∧
    (t.socket ≠ 0 →
      (t.conn_status = CONNECT_SENT ∨ t.conn_status = REQ_SENT) ∨
      (t.conn_status = FAIL ∧ t.socket = net.socket i ∧ closes t = []) ∨
      (t.conn_status = SKIPPED ∧ t.socket = ZBX_SOCKET_ERROR)) ∧
    (t.conn_status = REQ_SENT → net.fionread i m ≠ 0 →
      ∃ t', (afterTicks tls program net slots (m + 1)).targets[i]? = some t' ∧
        t'.conn_status = FAIL ∧ t'.socket = 0 ∧ closes t' = [net.socket i]) := by
  obtain ⟨c1, c2, -, -, -, r1, r2, -⟩ := status_distinct
  have ht' := ht
  rw [afterTicks_getElem?] at ht'
  cases hs : slots[i]? with
  | none => rw [hs] at ht'; simp at ht'
  | some s =>
    rw [hs] at ht'
    simp only [Option.map_some', Option.some.injEq] at ht'
    have hinv := ticksTarget_handleInv net i 0 m _ (setupTarget_handleInv tls program net i s)
    rw [ht'] at hinv
    refine ⟨fun hnt => ?_, fun hsock => ?_, fun hr hf => ?_⟩
    · rcases hinv with ⟨hsk, -⟩ | ⟨hfd, ⟨-, h2, h3⟩ | ⟨hst, -, -⟩⟩
      · rw [hsk] at hnt
        rcases hnt with h | h
        · exact absurd h.symm c1
        · exact absurd h.symm r1
      · exact ⟨h2, hfd, h3⟩
      · rw [hst] at hnt
        rcases hnt with h | h
        · exact absurd h.symm c2
        · exact absurd h.symm r2
    · rcases hinv with ⟨hsk, h0 | he, -⟩ | ⟨-, ⟨h1, h2, h3⟩ | ⟨-, h0, -⟩⟩
      · exact absurd h0 hsock
      · exact Or.inr (Or.inr ⟨hsk, he⟩)
      · rcases h1 with h | h | h
        · exact Or.inl (Or.inl h)
        · exact Or.inl (Or.inr h)
        · exact Or.inr (Or.inl ⟨h, h2, h3⟩)
      · exact absurd h0 hsock
    · refine ⟨tickTarget net m i t, ?_, ?_⟩
      · rw [afterTicks, tick_getElem?, ht]; rfl
      · have hsock : t.socket = net.socket i ∧ closes t = [] := by
          rcases hinv with ⟨hsk, -⟩ | ⟨-, ⟨-, h2, h3⟩ | ⟨hst, -, -⟩⟩
          · rw [hsk] at hr; exact absurd hr.symm r1
          · exact ⟨h2, h3⟩
          · rw [hst] at hr; exact absurd hr.symm r2
        obtain ⟨-, f2, -, f4, -, -⟩ :=
          recv_and_classify_fields (net.recv i m) (net.strerror i m) t
        rw [tickTarget_of_req_sent net m i t hr, if_neg hf]
        simp [f2, f4, hsock.1, hsock.2]

/-- Witness of C20 (amended): the answered target is in REQ_SENT after the first
tick and is FAIL with handle 0 and descriptor 5 closed after the second. -/
theorem handle_at_tick_boundary_witness :
    ∃ t', (afterTicks false "server" netAnswer slotsOne 2).targets[0]? = some t' ∧
      t'.conn_status = FAIL ∧ t'.socket = 0 ∧ closes t' = [5] :=
  (handle_at_tick_boundary false "server" netAnswer slotsOne 0 1
    ((afterTicks false "server" netAnswer slotsOne 1).targets.get ⟨0, by decide⟩)
    (by decide)).2.2 (by decide) (by decide)

/-! ## Writes to the outcome slot (C19) -/

@[simp]
theorem outcomeWrites_setErr (t : Target) (v : Int) :
    outcomeWrites (t.setErr v) = outcomeWrites t ++ [Ev.errcode v] := by
  simp [outcomeWrites, List.filter_append]

@[simp]
theorem outcomeWrites_setMsg (t : Target) (m : List Char) :
    outcomeWrites (t.setMsg m) = outcomeWrites t ++ [Ev.msg m] := by
  simp [outcomeWrites, List.filter_append]

@[simp]
theorem outcomeWrites_setStatus (t : Target) (v : Int) :
    outcomeWrites (t.setStatus v) = outcomeWrites t := rfl

@[simp]
theorem outcomeWrites_setSocket (t : Target) (fd : Int) :
    outcomeWrites (t.setSocket fd) = outcomeWrites t := rfl

@[simp]
theorem outcomeWrites_tcpClose (t : Target) : outcomeWrites t.tcpClose = outcomeWrites t := by
  simp [outcomeWrites, List.filter_append]

theorem finalTarget_of_done (t : Target) (h : t.conn_status = FAIL ∨ t.conn_status = SKIPPED) :
    outcomeWrites (finalTarget t) = outcomeWrites t ∧ (finalTarget t).errcode = t.errcode ∧
      (finalTarget t).result = t.result := by
  obtain ⟨-, -, -, -, -, -, -, -, -, -, -, -, f1, f2, -, s1, s2, -⟩ := status_distinct
  have hn : ¬ (REQ_SENT = t.conn_status ∨ CONNECT_SENT = t.conn_status) := by
    rcases h with h | h <;> rw [h] <;> simp [f1.symm, f2.symm, s1.symm, s2.symm]
  rw [finalTarget_eq, if_neg hn]
  split_ifs <;> simp

theorem idle_of_done (t : Target) (h : t.conn_status = FAIL ∨ t.conn_status = SKIPPED) :
    ¬ (t.conn_status = CONNECT_SENT ∨ t.conn_status = REQ_SENT) := by
  obtain ⟨-, -, -, -, -, -, -, -, -, -, -, -, f1, f2, -, s1, s2, -⟩ := status_distinct
  rcases h with h | h <;> rw [h] <;> simp [f1, f2, s1, s2]

theorem setupTarget_unwritten (tls : Bool) (program : String) (net : Net) (i : Nat) (s : Slot) :
    Unwritten (setupTarget tls program net i s) := by
  by_cases hc : socketCreated tls net i s
  · rw [setupTarget_of_created tls program net i s hc]
    unfold Unwritten
    split_ifs <;> simp [Slot.start, outcomeWrites]
  · rcases setupTarget_skipped_or_created tls program net i s with h | h
    · exact Or.inr (Or.inr h)
    · exact absurd h hc

theorem tickTarget_unwritten (net : Net) (k i : Nat) (t : Target) (hq : quiet net i)
    (h : Unwritten t) : Unwritten (tickTarget net k i t) := by
  rcases h with ⟨hst | hst, hw⟩ | h
  · rw [tickTarget_of_connect_sent net k i t hst]
    by_cases h1 : net.getsockopt_ret i k < 0
    · rw [if_pos h1]; exact Or.inl ⟨Or.inl hst, hw⟩
    · have h2 : ¬ (net.getsockopt_result i k ≠ 0) := by
        rcases hq.1 k with h | h
        · exact absurd h h1
        · simp [h]
      have h3 : ¬ (net.send i k ≠ SUCCEED) := by simp [hq.2 k]
      rw [if_neg h1, if_neg h2, if_neg h3]
      exact Or.inl ⟨Or.inr rfl, by simpa using hw⟩
  · rw [tickTarget_of_req_sent net k i t hst]
    split_ifs
    · exact Or.inl ⟨Or.inr hst, hw⟩
    · exact Or.inr (Or.inl rfl)
  · have h0 : t.conn_status = SKIPPED ∨ t.conn_status = FAIL ∨ t.conn_status = CLOSED := by
      rcases h with h | h
      · exact Or.inr (Or.inl h)
      · exact Or.inl h
    rw [tickTarget_of_terminal net k i t h0]
    exact Or.inr h

theorem ticksTarget_unwritten (net : Net) (i k n : Nat) (t : Target) (hq : quiet net i)
    (h : Unwritten t) : Unwritten (ticksTarget net i k n t) := by
  induction n generalizing k t with
  | zero => exact h
  | succ n ih => rw [ticksTarget]; exact ih _ _ (tickTarget_unwritten net k i t hq h)

/-- C19, the code at the failing inputs: the outcome slot of a target is written
with one outcome and later overwritten with another.  After a send failure the
first tick leaves NETWORK_ERROR and the send-failure message in the slot (lines
215-216), the target goes on to REQ_SENT (line 222), and the closing loop
overwrites the slot with the timeout message and TIMEOUT_ERROR (lines 436-437).
After a pending socket error the first tick leaves the connection-failed message
and NETWORK_ERROR (lines 402-403), the target stays in CONNECT_SENT (line 405),
the second tick writes NETWORK_ERROR and the send-failure message, and the closing
loop overwrites the slot with the timeout message and TIMEOUT_ERROR. -/
theorem outcome_overwritten_at_deadline :
    (afterTicks false "server" netSendFails slotsOne 1).targets.map outcomeWrites
      = [[Ev.errcode NETWORK_ERROR, Ev.msg MSG_SEND_FAILED]] ∧
    (get_value_agent_async false "server" netSendFails 5 slotsOne).map
        (fun b => b.targets.map outcomeWrites)
      = some [[Ev.errcode NETWORK_ERROR, Ev.msg MSG_SEND_FAILED, Ev.msg MSG_TIMED_OUT,
          Ev.errcode TIMEOUT_ERROR]] ∧
    (afterTicks false "server" netRefused slotsOne 1).targets.map outcomeWrites
      = [[Ev.msg MSG_CONNECTION_FAILED, Ev.errcode NETWORK_ERROR]] ∧
    (afterTicks false "server" netRefused slotsOne 2).targets.map outcomeWrites
      = [[Ev.msg MSG_CONNECTION_FAILED, Ev.errcode NETWORK_ERROR, Ev.errcode NETWORK_ERROR,
          Ev.msg MSG_SEND_FAILED]] ∧
    (get_value_agent_async false "server" netRefused 5 slotsOne).map
        (fun b => b.targets.map outcomeWrites)
      = some [[Ev.msg MSG_CONNECTION_FAILED, Ev.errcode NETWORK_ERROR,
          Ev.errcode NETWORK_ERROR, Ev.msg MSG_SEND_FAILED, Ev.msg MSG_TIMED_OUT,
          Ev.errcode TIMEOUT_ERROR]] := by
  decide

/-- Within one receive step `errcodes[0]` is assigned twice: for an agent that
answers with the not-supported sentinel, first SUCCEED (line 228) and then
NOTSUPPORTED (line 241). -/
theorem errcode_written_twice :
    (get_value_agent_async false "server" netNotSupported 5 slotsOne).map
        (fun b => b.targets.map outcomeWrites)
      = some [[Ev.errcode SUCCEED, Ev.msg MSG_NOT_SUPPORTED, Ev.errcode NOTSUPPORTED]] := by
  decide

/-- Where the outcome slot is stable: once a target is terminal (FAIL or SKIPPED)
at a tick boundary, its outcome slot is not written again and holds on return what
it held then; and for a target that meets no pending socket error while connecting
and no send failure, an outcome slot that has been written by the end of the setup
phase or of a tick is not written again.  The call returns once the budget has
elapsed. -/
theorem outcome_written_in_one_step (tls : Bool) (program : String) (net : Net)
    (slots : List Slot) (i : Nat) (s : Slot) (hs : slots[i]? = some s) :
    (∀ K, budgetElapsed net K →
      ∃ b, get_value_agent_async tls program net (K + 1) slots = some b) ∧
    (∀ fuel b, get_value_agent_async tls program net fuel slots = some b →
      ∃ n tf, b = finish (afterTicks tls program net slots n) ∧ b.targets[i]? = some tf ∧
        ∀ m t, m ≤ n → (afterTicks tls program net slots m).targets[i]? = some t →
          ((t.conn_status = FAIL ∨ t.conn_status = SKIPPED) →
            outcomeWrites tf = outcomeWrites t ∧ tf.errcode = t.errcode ∧
              tf.result = t.result) ∧
          (quiet net i → outcomeWrites t ≠ [] →
            outcomeWrites tf = outcomeWrites t ∧ tf.errcode = t.errcode ∧
              tf.result = t.result)) := by
  refine ⟨fun K hK => async_returns tls program net slots K hK, ?_⟩
  intro fuel b hb
  obtain ⟨n, -, -, hfin, -, -⟩ := async_some tls program net fuel slots b hb
  refine ⟨n, finalTarget (ticksTarget net i 0 n (setupTarget tls program net i s)), hfin, ?_, ?_⟩
  · rw [hfin, finish_getElem?, afterTicks_getElem?, hs]; rfl
  intro m t hm ht
  rw [afterTicks_getElem?, hs] at ht
  simp only [Option.map_some', Option.some.injEq] at ht
  have hdone : (t.conn_status = FAIL ∨ t.conn_status = SKIPPED) →
      outcomeWrites (finalTarget (ticksTarget net i 0 n (setupTarget tls program net i s)))
          = outcomeWrites t ∧
        (finalTarget (ticksTarget net i 0 n (setupTarget tls program net i s))).errcode
          = t.errcode ∧
        (finalTarget (ticksTarget net i 0 n (setupTarget tls program net i s))).result
          = t.result := by
    intro hd
    obtain ⟨d, rfl⟩ : ∃ d, n = m + d := ⟨n - m, by omega⟩
    rw [ticksTarget_add, ht, ticksTarget_idle net i _ d t (idle_of_done t hd)]
    exact finalTarget_of_done t hd
  refine ⟨hdone, fun hq hw => ?_⟩
  have hu := ticksTarget_unwritten net i 0 m _ hq (setupTarget_unwritten tls program net i s)
  rw [ht] at hu
  rcases hu with ⟨-, hw'⟩ | hd
  · exact absurd hw' hw
  · exact hdone hd

/-- Instance of `outcome_written_in_one_step`: the call on the target that answers
with the sentinel returns, and the slot of index 0 is as the theorem describes. -/
theorem outcome_written_in_one_step_witness :
    ∃ b, get_value_agent_async false "server" netNotSupported 5 slotsOne = some b ∧
      ∃ n tf, b = finish (afterTicks false "server" netNotSupported slotsOne n) ∧
        b.targets[0]? = some tf :=
  have h := outcome_written_in_one_step false "server" netNotSupported slotsOne 0
    { item := item0, result := result0, errcode := 42 } rfl
  (h.1 4 (by decide)).elim fun b hb =>
    (h.2 5 b hb).elim fun n hn => hn.elim fun tf htf => ⟨b, hb, n, tf, htf.1, htf.2.1⟩

/-! ## The clock test of the polling loop -/

/-- The polling loop starts no tick at an evaluation of its condition at which the
clock test fails, and every tick of a call that returns was started at an
evaluation at which the budget had not elapsed. -/
theorem ticks_start_within_budget (tls : Bool) (program : String) (net : Net)
    (slots : List Slot) :
    (∀ k fuel b, budgetElapsed net k → pollLoop net (fuel + 1) k b = some b) ∧
    (∀ fuel b, get_value_agent_async tls program net fuel slots = some b →
      ∃ n, b = finish (afterTicks tls program net slots n) ∧
        ∀ m, m < n → ¬ budgetElapsed net m) := by
  refine ⟨fun k fuel b hk => ?_, fun fuel b hb => ?_⟩
  · have hc : ¬ loopCond net k b := fun hc => hk hc.2
    rw [pollLoop, if_neg hc]
  · obtain ⟨n, -, -, hfin, -, hrun⟩ := async_some tls program net fuel slots b hb
    exact ⟨n, hfin, fun m hm he => he (hrun m hm).2⟩

/-! ## The two copies of the classifier (C23) -/

theorem classify_written (item : DC_ITEM) (r : RecvResult) (res res' : AGENT_RESULT) :
    (get_value_agent_classify item r res).1 = (get_value_agent_classify item r res').1 ∧
    ((get_value_agent_classify item r res).1 = SUCCEED →
      (get_value_agent_classify item r res).2.text
        = (get_value_agent_classify item r res').2.text) ∧
    ((get_value_agent_classify item r res).1 ≠ SUCCEED →
      (get_value_agent_classify item r res).2.msg
        = (get_value_agent_classify item r res').2.msg) := by
  have h1 : NOTSUPPORTED ≠ SUCCEED := by decide
  have h2 : AGENT_ERROR ≠ SUCCEED := by decide
  have h3 : NETWORK_ERROR ≠ SUCCEED := by decide
  unfold get_value_agent_classify
  simp only
  split_ifs <;> simp [SET_MSG_RESULT, set_result_type_text, h1, h2, h3]

/-- C23: for a successfully received response (same buffer, received length and
read byte count) and the same item, the classification in `get_value_agent` and
the one in `handle_socket_operation` (state REQ_SENT) give the same status code
and the same result: the same text value when the code is SUCCEED, the same
message otherwise, and the same `AGENT_RESULT` altogether when they start from
the same result. -/
theorem classifier_copies_agree (tls : Bool) (program : String) (w : AgentCall)
    (item : DC_ITEM) (result : AGENT_RESULT) (net : Net) (i k : Nat) (t : Target) (a : Nat)
    (hw : responseReceived tls w item) (hs : t.conn_status = REQ_SENT)
    (hitem : t.item = item) (hrecv : net.recv i k = w.recv) :
    (handle_socket_operation net i k t a).1.errcode
      = (get_value_agent tls program w item result).1 ∧
    ((get_value_agent tls program w item result).1 = SUCCEED →
      (handle_socket_operation net i k t a).1.result.text
        = (get_value_agent tls program w item result).2.text) ∧
    ((get_value_agent tls program w item result).1 ≠ SUCCEED →
      (handle_socket_operation net i k t a).1.result.msg
        = (get_value_agent tls program w item result).2.msg) ∧
    (t.result = result →
      (handle_socket_operation net i k t a).1.result
        = (get_value_agent tls program w item result).2) := by
  have hr : (net.recv i k).received_len ≠ FAIL := by rw [hrecv]; exact hw.2.2.2
  have hb := hso_req_sent net i k t a hs hr
  rw [Prod.ext_iff] at hb
  simp only at hb
  rw [get_value_agent_received tls program w item result hw, hb.1, hb.2, hitem, hrecv]
  obtain ⟨c1, c2, c3⟩ := classify_written item w.recv t.result result
  refine ⟨c1, fun h => c2 (c1.trans h), fun h => c3 (fun e => h (c1.symm.trans e)), ?_⟩
  intro he
  rw [he]

/-- Witness of C23: for the response "  12 \r\n" both copies give SUCCEED with the
text "12". -/
theorem classifier_copies_agree_witness :
    (handle_socket_operation (net0 (recvOf 7 [' ', ' ', '1', '2', ' ', CR, LF])) 0 0
        (target0 REQ_SENT) 1).1.errcode
      = (get_value_agent false "server" (callOf (recvOf 7 [' ', ' ', '1', '2', ' ', CR, LF]))
          item0 result0).1 ∧
    (handle_socket_operation (net0 (recvOf 7 [' ', ' ', '1', '2', ' ', CR, LF])) 0 0
        (target0 REQ_SENT) 1).1.result
      = (get_value_agent false "server" (callOf (recvOf 7 [' ', ' ', '1', '2', ' ', CR, LF]))
          item0 result0).2 :=
  have h := classifier_copies_agree false "server"
    (callOf (recvOf 7 [' ', ' ', '1', '2', ' ', CR, LF])) item0 result0
    (net0 (recvOf 7 [' ', ' ', '1', '2', ' ', CR, LF])) 0 0 (target0 REQ_SENT) 1
    ⟨Or.inl (by decide), by decide, by decide, by decide⟩ rfl rfl rfl
  ⟨h.1, h.2.2.2 rfl⟩

/-! ## The reachable states (C22) -/

theorem setupTarget_status (tls : Bool) (program : String) (net : Net) (i : Nat) (s : Slot) :
    (setupTarget tls program net i s).conn_status = SKIPPED ∨
      (setupTarget tls program net i s).conn_status = FAIL ∨
      (setupTarget tls program net i s).conn_status = CONNECT_SENT := by
  rcases setupTarget_skipped_or_created tls program net i s with h | hc
  · exact Or.inl h
  · rw [setupTarget_of_created tls program net i s hc]
    split_ifs <;> simp

/-- C22: after the setup loop every `conn_status[i]` is SKIPPED, FAIL or
CONNECT_SENT, and at the start of every tick it is SKIPPED, FAIL, CONNECT_SENT or
REQ_SENT; it is never INIT, SOCKET_CREATED or CLOSED, so the condition of the
THIS_SHOULD_NEVER_HAPPEN branch of the scan (none of the tested states) is false
for every target the polling loop looks at. -/
theorem reachable_states (tls : Bool) (program : String) (net : Net) (slots : List Slot)
    (i m : Nat) (t : Target)
    (ht : (afterTicks tls program net slots m).targets[i]? = some t) :
    (m = 0 → t.conn_status = SKIPPED ∨ t.conn_status = FAIL ∨ t.conn_status = CONNECT_SENT) ∧
    (t.conn_status = SKIPPED ∨ t.conn_status = FAIL ∨ t.conn_status = CONNECT_SENT ∨
      t.conn_status = REQ_SENT) ∧
    t.conn_status ≠ INIT ∧ t.conn_status ≠ SOCKET_CREATED ∧ t.conn_status ≠ CLOSED ∧
    ¬ (¬ (t.conn_status = SKIPPED ∨ t.conn_status = FAIL ∨ t.conn_status = CLOSED) ∧
        ¬ t.conn_status = CONNECT_SENT ∧ ¬ t.conn_status = REQ_SENT) := by
  have ht' := ht
  rw [afterTicks_getElem?] at ht'
  cases hs : slots[i]? with
  | none => rw [hs] at ht'; simp at ht'
  | some s =>
    rw [hs] at ht'
    simp only [Option.map_some', Option.some.injEq] at ht'
    have hinv := ticksTarget_handleInv net i 0 m _ (setupTarget_handleInv tls program net i s)
    rw [ht'] at hinv
    have hall : t.conn_status = SKIPPED ∨ t.conn_status = FAIL ∨ t.conn_status = CONNECT_SENT ∨
        t.conn_status = REQ_SENT := by
      rcases hinv with ⟨h, -⟩ | ⟨-, ⟨h | h | h, -⟩ | ⟨h, -⟩⟩
      · exact Or.inl h
      · exact Or.inr (Or.inr (Or.inl h))
      · exact Or.inr (Or.inr (Or.inr h))
      · exact Or.inr (Or.inl h)
      · exact Or.inr (Or.inl h)
    refine ⟨fun hm => ?_, hall, ?_, ?_, ?_, ?_⟩
    · subst hm
      rw [← ht']
      exact setupTarget_status tls program net i s
    · rcases hall with h | h | h | h <;> rw [h] <;> decide
    · rcases hall with h | h | h | h <;> rw [h] <;> decide
    · rcases hall with h | h | h | h <;> rw [h] <;> decide
    · rintro ⟨h1, h2, h3⟩
      rcases hall with h | h | h | h
      · exact h1 (Or.inl h)
      · exact h1 (Or.inr (Or.inl h))
      · exact h2 h
      · exact h3 h

/-- Witness of C22: the answered target is in REQ_SENT at the start of the second
tick. -/
theorem reachable_states_witness :
    ((afterTicks false "server" netAnswer slotsOne 1).targets.get ⟨0, by decide⟩).conn_status
        = REQ_SENT ∧
    ((afterTicks false "server" netAnswer slotsOne 1).targets.get ⟨0, by decide⟩).conn_status
        ≠ SOCKET_CREATED :=
  ⟨by decide,
    (reachable_states false "server" netAnswer slotsOne 0 1
      ((afterTicks false "server" netAnswer slotsOne 1).targets.get ⟨0, by decide⟩)
      (by decide)).2.2.2.1⟩

/-! ## The exact value of `active_agents` (C21) -/

theorem countP_eq_countFrom (p : Target → Bool) (f : Nat → Slot → Target) (i : Nat)
    (ss : List Slot) (l : List Target) (h : ∀ j, l[j]? = (ss[j]?).map (f (i + j))) :
    l.countP p = countFrom (fun j s => p (f j s)) i ss := by
  induction ss generalizing i l with
  | nil =>
    have h0 := h 0
    simp only [List.getElem?_nil, Option.map_none'] at h0
    cases l with
    | nil => rfl
    | cons t l => simp at h0
  | cons s ss ih =>
    cases l with
    | nil =>
      have h0 := h 0
      simp at h0
    | cons t l =>
      have h0 := h 0
      simp only [List.getElem?_cons_zero, Option.map_some', Option.some.injEq,
        Nat.add_zero] at h0
      have hl := ih (i + 1) l (by
        intro j
        have hj := h (j + 1)
        simp only [List.getElem?_cons_succ] at hj
        rw [hj]
        have e : i + (j + 1) = i + 1 + j := by omega
        rw [e])
      rw [List.countP_cons, hl, h0]
      simp only [countFrom]
      omega

theorem countFrom_add (q1 q2 q3 : Nat → Slot → Bool)
    (h : ∀ j s, (if q1 j s then 1 else 0) + (if q2 j s then 1 else 0)
      = (if q3 j s then 1 else 0)) (i : Nat) (ss : List Slot) :
    countFrom q1 i ss + countFrom q2 i ss = countFrom q3 i ss := by
  induction ss generalizing i with
  | nil => rfl
  | cons s ss ih =>
    simp only [countFrom]
    have := ih (i + 1)
    have := h i s
    omega

theorem countFrom_le_length (q : Nat → Slot → Bool) (i : Nat) (ss : List Slot) :
    countFrom q i ss ≤ ss.length := by
  induction ss generalizing i with
  | nil => simp [countFrom]
  | cons s ss ih =>
    simp only [countFrom, List.length_cons]
    have := ih (i + 1)
    split_ifs <;> omega

theorem counted_received_of_created (tls : Bool) (program : String) (net : Net)
    (m j : Nat) (s : Slot) :
    (if counted (ticksTarget net j 0 m (setupTarget tls program net j s)) then 1 else 0)
      + (if received (ticksTarget net j 0 m (setupTarget tls program net j s)) then 1 else 0)
      = (if decide (socketCreated tls net j s) then 1 else 0) ∧
    (closes (ticksTarget net j 0 m (setupTarget tls program net j s))).length ≤ 1 := by
  obtain ⟨-, -, -, -, -, -, -, -, -, -, -, -, f1, f2, -, s1, s2, s3⟩ := status_distinct
  by_cases hc : socketCreated tls net j s
  · have hinv := ticksTarget_sockInv net j 0 m _ _ (setupTarget_sockInv tls program net j s hc)
    rcases hinv with ⟨hst, -, hcl⟩ | ⟨hst, -, hcl⟩
    · have h1 : counted (ticksTarget net j 0 m (setupTarget tls program net j s)) = true := by
        simp only [counted, decide_eq_true_eq]
        rcases hst with h | h | h
        · exact Or.inl h
        · exact Or.inr (Or.inl h)
        · exact Or.inr (Or.inr ⟨h, hcl⟩)
      have h2 : received (ticksTarget net j 0 m (setupTarget tls program net j s)) = false := by
        simp [received, hcl]
      simp [h1, h2, hc, hcl]
    · have h1 : counted (ticksTarget net j 0 m (setupTarget tls program net j s)) = false := by
        simp [counted, hst, hcl, f1, f2]
      have h2 : received (ticksTarget net j 0 m (setupTarget tls program net j s)) = true := by
        simp [received, hcl]
      simp [h1, h2, hc, hcl]
  · have hsk : (setupTarget tls program net j s).conn_status = SKIPPED := by
      rcases setupTarget_skipped_or_created tls program net j s with h | h
      · exact h
      · exact absurd h hc
    have hcl : closes (setupTarget tls program net j s) = [] := by
      rcases setupTarget_handleInv tls program net j s with ⟨-, -, h⟩ | ⟨-, ⟨h, -⟩ | ⟨h, -⟩⟩
      · exact h
      · rw [hsk] at h
        rcases h with h | h | h
        · exact absurd h s1
        · exact absurd h s2
        · exact absurd h s3
      · rw [hsk] at h; exact absurd h s3
    rw [ticksTarget_skipped net j 0 m _ hsk]
    have h1 : counted (setupTarget tls program net j s) = false := by
      simp [counted, hsk, s1, s2, s3]
    have h2 : received (setupTarget tls program net j s) = false := by
      simp [received, hcl]
    simp [h1, h2, hc, hcl]

theorem active_plus_received (tls : Bool) (program : String) (net : Net) (slots : List Slot)
    (hlen : slots.length < 2 ^ 32) (m : Nat) :
    (afterTicks tls program net slots m).active_agents
        + (afterTicks tls program net slots m).targets.countP received
      = createdCount tls net slots := by
  rw [afterTicks_active tls program net slots hlen m]
  have hget : ∀ j, (afterTicks tls program net slots m).targets[j]?
      = (slots[j]?).map
          ((fun j s => ticksTarget net j 0 m (setupTarget tls program net j s)) (0 + j)) := by
    intro j
    rw [afterTicks_getElem?, Nat.zero_add]
  rw [countP_eq_countFrom counted
      (fun j s => ticksTarget net j 0 m (setupTarget tls program net j s)) 0 slots _ hget,
    countP_eq_countFrom received
      (fun j s => ticksTarget net j 0 m (setupTarget tls program net j s)) 0 slots _ hget]
  exact countFrom_add _ _ _
    (fun j s => (counted_received_of_created tls program net m j s).1) 0 slots
theorem forLoop_append (body : Nat → Target → Nat → Target × Nat) (i : Nat)
    (l1 l2 : List Target) (a : Nat) :
    forLoop body i (l1 ++ l2) a =
      ((forLoop body i l1 a).1 ++ (forLoop body (i + l1.length) l2 (forLoop body i l1 a).2).1,
        (forLoop body (i + l1.length) l2 (forLoop body i l1 a).2).2) := by
  induction l1 generalizing i a with
  | nil => simp [forLoop]
  | cons t l1 ih =>
    have e : i + 1 + l1.length = i + (l1.length + 1) := by omega
    have h := ih (i + 1) (body i t a).2
    rw [e] at h
    show forLoop body i (t :: (l1 ++ l2)) a = _
    simp only [forLoop, List.length_cons, List.cons_append]
    rw [h]

theorem scanPrefix_continue (body : Nat → Target → Nat → Target × Nat) (j : Nat)
    (ts : List Target) (a : Nat) :
    forLoop body 0 ts a =
      ((forLoop body 0 (ts.take j) a).1
          ++ (forLoop body (0 + (ts.take j).length) (ts.drop j) (scanPrefix body j ts a).2).1,
        (forLoop body (0 + (ts.take j).length) (ts.drop j) (scanPrefix body j ts a).2).2) := by
  have h := forLoop_append body 0 (ts.take j) (ts.drop j) a
  rw [List.take_append_drop] at h
  exact h

theorem scanPrefix_count (body : Nat → Target → Nat → Target × Nat) (P : Target → Prop)
    (hbody : ∀ i t a, P t → (counted t = true → 1 ≤ a) →
      a + (if counted t then 0 else 1) < 2 ^ 32 →
      (body i t a).2 + (if counted t then 1 else 0)
        = a + (if counted (body i t a).1 then 1 else 0))
    (j : Nat) (ts : List Target) (a : Nat) (hP : ∀ t ∈ ts, P t)
    (ha : a = ts.countP counted) (hlen : ts.length < 2 ^ 32) :
    (scanPrefix body j ts a).2 = (scanPrefix body j ts a).1.countP counted ∧
    (scanPrefix body j ts a).1.countP nonTerminal ≤ (scanPrefix body j ts a).2 := by
  have hsplit : ts.countP counted = (ts.take j).countP counted + (ts.drop j).countP counted := by
    rw [← List.countP_append, List.take_append_drop]
  have hl : (ts.take j).length + (ts.drop j).length = ts.length := by
    rw [← List.length_append, List.take_append_drop]
  have hle : (ts.drop j).countP counted ≤ (ts.drop j).length := List.countP_le_length _
  have h := forLoop_count body P hbody 0 (ts.take j) a ((ts.drop j).countP counted)
    (fun t ht => hP t (List.mem_of_mem_take ht)) (by omega) (by omega)
  have heq : (scanPrefix body j ts a).2 = (scanPrefix body j ts a).1.countP counted := by
    simp only [scanPrefix, List.countP_append]
    omega
  refine ⟨heq, ?_⟩
  rw [heq]
  exact List.countP_mono_left (fun t _ ht => counted_of_nonTerminal t ht)

theorem lastErrWrite_mem (t : Target) (v : Int) (h : lastErrWrite t = some v) :
    Ev.errcode v ∈ t.trace := by
  have key : ∀ (l : List Ev) (acc : Option Int),
      l.foldl (fun acc e => match e with
        | Ev.errcode v => some v
        | _ => acc) acc = some v → acc = some v ∨ Ev.errcode v ∈ l := by
    intro l
    induction l with
    | nil => intro acc h; exact Or.inl h
    | cons e l ih =>
      intro acc h
      simp only [List.foldl_cons] at h
      rcases ih _ h with h1 | h1
      · cases e with
        | errcode w =>
          simp only [Option.some.injEq] at h1
          right; rw [h1]; simp
        | msg m => exact Or.inl h1
        | text c => exact Or.inl h1
        | close fd => exact Or.inl h1
      · right; simp [h1]
  rcases key t.trace none h with h1 | h1
  · simp at h1
  · exact h1

theorem recv_and_classify_noTimeout (r : RecvResult) (e : List Char) (t : Target)
    (h : noTimeoutWrite t) : noTimeoutWrite (recv_and_classify r e t) := by
  have h1 : TIMEOUT_ERROR ≠ SUCCEED := by decide
  have h2 : TIMEOUT_ERROR ≠ NOTSUPPORTED := by decide
  have h3 : TIMEOUT_ERROR ≠ AGENT_ERROR := by decide
  have h4 : TIMEOUT_ERROR ≠ NETWORK_ERROR := by decide
  unfold noTimeoutWrite at h ⊢
  unfold recv_and_classify
  simp only
  split_ifs <;> simp [h, h1, h2, h3, h4]

theorem setupTarget_noTimeout (tls : Bool) (program : String) (net : Net) (i : Nat) (s : Slot) :
    noTimeoutWrite (setupTarget tls program net i s) := by
  have h1 : TIMEOUT_ERROR ≠ CONFIG_ERROR := by decide
  by_cases hc : socketCreated tls net i s
  · rw [setupTarget_of_created tls program net i s hc]
    unfold noTimeoutWrite
    split_ifs <;> simp [Slot.start, h1]
  · by_cases he : s.item.type = ITEM_TYPE_ZABBIX
    · have he' : ¬ (ITEM_TYPE_ZABBIX ≠ (s.start.setStatus INIT).item.type) :=
        fun e => e he.symm
      unfold setupTarget setupBody noTimeoutWrite
      simp only
      rw [if_neg he']
      split_ifs with h2 h3
      · simp [Slot.start, h1]
      · exact absurd ⟨he, h2, h3⟩ hc
      · simp [Slot.start, h1]
      · simp [Slot.start, h1]
    · rw [setupTarget_of_ineligible tls program net i s he]
      simp [noTimeoutWrite, Slot.start]

theorem tickTarget_noTimeout (net : Net) (k i : Nat) (t : Target) (h : noTimeoutWrite t) :
    noTimeoutWrite (tickTarget net k i t) := by
  have h4 : TIMEOUT_ERROR ≠ NETWORK_ERROR := by decide
  by_cases h1 : t.conn_status = CONNECT_SENT
  · rw [tickTarget_of_connect_sent net k i t h1]
    unfold noTimeoutWrite at h ⊢
    split_ifs <;> simp [h, h4]
  by_cases h2 : t.conn_status = REQ_SENT
  · rw [tickTarget_of_req_sent net k i t h2]
    have hr := recv_and_classify_noTimeout (net.recv i k) (net.strerror i k) t h
    unfold noTimeoutWrite at h hr ⊢
    split_ifs
    · exact h
    · simp [hr]
  · rw [tickTarget_of_idle net k i t (fun e => e.elim h1 h2)]
    exact h

theorem ticksTarget_noTimeout (net : Net) (i k n : Nat) (t : Target) (h : noTimeoutWrite t) :
    noTimeoutWrite (ticksTarget net i k n t) := by
  induction n generalizing k t with
  | zero => exact h
  | succ n ih => rw [ticksTarget]; exact ih _ _ (tickTarget_noTimeout net k i t h)

theorem finalTarget_noTimeout (t : Target) (h : noTimeoutWrite t)
    (hidle : ¬ (t.conn_status = CONNECT_SENT ∨ t.conn_status = REQ_SENT)) :
    noTimeoutWrite (finalTarget t) := by
  have hn : ¬ (REQ_SENT = t.conn_status ∨ CONNECT_SENT = t.conn_status) := by
    rintro (e | e)
    · exact hidle (Or.inr e.symm)
    · exact hidle (Or.inl e.symm)
  rw [finalTarget_eq, if_neg hn]
  unfold noTimeoutWrite at h ⊢
  split_ifs <;> simp [h]
theorem scanPrefix_length (body : Nat → Target → Nat → Target × Nat) (j : Nat)
    (ts : List Target) (a : Nat) : (scanPrefix body j ts a).1.length = ts.length := by
  simp only [scanPrefix, List.length_append, forLoop_length]
  rw [← List.length_append, List.take_append_drop]

/-- C21: for a batch of `num < 2^31` requests, after the setup phase, after every
tick and at every point inside the setup loop and inside a scan, `active_agents`
is at least the number of targets in CONNECT_SENT or REQ_SENT and at most `num`
(it never wraps around); at the tick boundaries it equals the number of sockets
created minus the number of completed receive steps, and no target has completed
more than one receive step.  Consequently, when the polling loop ends with
`active_agents = 0`, the call writes TIMEOUT_ERROR to no target and no eligible
target returns with TIMEOUT_ERROR. -/
theorem active_agents_exact (tls : Bool) (program : String) (net : Net) (slots : List Slot)
    (hnum : slots.length < 2 ^ 31) :
    (∀ m,
      (afterTicks tls program net slots m).targets.countP nonTerminal
        ≤ (afterTicks tls program net slots m).active_agents ∧
      (afterTicks tls program net slots m).active_agents
          + (afterTicks tls program net slots m).targets.countP received
        = createdCount tls net slots ∧
      (afterTicks tls program net slots m).active_agents ≤ slots.length ∧
      ∀ t ∈ (afterTicks tls program net slots m).targets, (closes t).length ≤ 1) ∧
    (∀ j,
      (scanPrefix (setupBody tls program net) j (slots.map Slot.start) 0).1.countP nonTerminal
        ≤ (scanPrefix (setupBody tls program net) j (slots.map Slot.start) 0).2 ∧
      (scanPrefix (setupBody tls program net) j (slots.map Slot.start) 0).2 ≤ slots.length) ∧
    (∀ m j,
      (scanPrefix (tickBody net m) j (afterTicks tls program net slots m).targets
          (afterTicks tls program net slots m).active_agents).1.countP nonTerminal
        ≤ (scanPrefix (tickBody net m) j (afterTicks tls program net slots m).targets
          (afterTicks tls program net slots m).active_agents).2 ∧
      (scanPrefix (tickBody net m) j (afterTicks tls program net slots m).targets
          (afterTicks tls program net slots m).active_agents).2 ≤ slots.length) ∧
    (∀ fuel b0, pollLoop net fuel 0 (setup tls program net slots) = some b0 →
      b0.active_agents = 0 →
      get_value_agent_async tls program net fuel slots = some (finish b0) ∧
      ∀ (i : Nat) (t : Target), (finish b0).targets[i]? = some t →
        noTimeoutWrite t ∧ (t.item.type = ITEM_TYPE_ZABBIX → t.errcode ≠ TIMEOUT_ERROR)) := by
  have hlen : slots.length < 2 ^ 32 := by omega
  refine ⟨fun m => ?_, fun j => ?_, fun m j => ?_, fun fuel b0 hloop h0 => ?_⟩
  · have hact := afterTicks_active tls program net slots hlen m
    have hsum := active_plus_received tls program net slots hlen m
    refine ⟨?_, hsum, ?_, ?_⟩
    · rw [hact]
      exact List.countP_mono_left (fun t _ ht => counted_of_nonTerminal t ht)
    · rw [hact, ← afterTicks_length tls program net slots m]
      exact List.countP_le_length _
    · intro t ht
      obtain ⟨i, hi⟩ := List.mem_iff_getElem?.mp ht
      rw [afterTicks_getElem?] at hi
      cases hs : slots[i]? with
      | none => rw [hs] at hi; simp at hi
      | some s =>
        rw [hs] at hi
        simp only [Option.map_some', Option.some.injEq] at hi
        rw [← hi]
        exact (counted_received_of_created tls program net m i s).2
  · have h := scanPrefix_count (setupBody tls program net) (fun t => ∃ s : Slot, t = s.start)
      (fun i t a hP _ h2 => setupBody_count tls program net i t a hP h2)
      j (slots.map Slot.start) 0
      (by intro t ht; simp only [List.mem_map] at ht; obtain ⟨s, -, rfl⟩ := ht; exact ⟨s, rfl⟩)
      (by
        symm
        rw [List.countP_eq_zero]
        intro t ht
        simp only [List.mem_map] at ht
        obtain ⟨s, -, rfl⟩ := ht
        simp [counted_start])
      (by simpa using hlen)
    refine ⟨h.2, ?_⟩
    rw [h.1]
    have := scanPrefix_length (setupBody tls program net) j (slots.map Slot.start) 0
    rw [List.length_map] at this
    rw [← this]
    exact List.countP_le_length _
  · have h := scanPrefix_count (tickBody net m) (fun _ => True)
      (fun i t a _ h1 h2 => tickBody_count net m i t a h1 h2)
      j (afterTicks tls program net slots m).targets
      (afterTicks tls program net slots m).active_agents (fun _ _ => trivial)
      (afterTicks_active tls program net slots hlen m)
      (by rw [afterTicks_length]; exact hlen)
    refine ⟨h.2, ?_⟩
    rw [h.1]
    have := scanPrefix_length (tickBody net m) j (afterTicks tls program net slots m).targets
      (afterTicks tls program net slots m).active_agents
    rw [afterTicks_length] at this
    rw [← this]
    exact List.countP_le_length _
  · refine ⟨by simp [get_value_agent_async, hloop], fun i t ht => ?_⟩
    obtain ⟨n, hn⟩ := pollLoop_afterTicks tls program net slots fuel b0 hloop
    subst hn
    rw [finish_getElem?, afterTicks_getElem?] at ht
    cases hs : slots[i]? with
    | none => rw [hs] at ht; simp at ht
    | some s =>
      rw [hs] at ht
      simp only [Option.map_some', Option.some.injEq] at ht
      have hget : (afterTicks tls program net slots n).targets[i]?
          = some (ticksTarget net i 0 n (setupTarget tls program net i s)) := by
        rw [afterTicks_getElem?, hs]; rfl
      have hidle := idle_of_active_zero tls program net slots hlen n i _ h0 hget
      have hnt : noTimeoutWrite t := by
        rw [← ht]
        exact finalTarget_noTimeout _
          (ticksTarget_noTimeout net i 0 n _ (setupTarget_noTimeout tls program net i s)) hidle
      refine ⟨hnt, fun he hto => ?_⟩
      have hitem : t.item = s.item := by
        rw [← ht]; exact runTarget_item tls program net n i s
      have hset := (runTarget_settled tls program net n i s (hitem ▸ he)).2
      have ht' : runTarget tls program net n i s = t := ht
      rw [ht'] at hset
      have hmem := lastErrWrite_mem t t.errcode hset
      rw [hto] at hmem
      exact hnt hmem

/-- Witness of C21: in the batch of one answered request one socket is created;
after the setup phase the counter is 1 with no receive step completed. -/
theorem active_agents_exact_witness :
    (afterTicks false "server" netAnswer slotsOne 0).active_agents
        + (afterTicks false "server" netAnswer slotsOne 0).targets.countP received
      = createdCount false netAnswer slotsOne ∧
    createdCount false netAnswer slotsOne = 1 :=
  ⟨((active_agents_exact false "server" netAnswer slotsOne (by decide)).1 0).2.1, by decide⟩

end Zbx
